import Mathlib

/-!
# Verification of the site-layout-optimizer backend

Shallow embedding of the computational core of the `site-layout-optimizer`
backend services (terrain analysis, asset placement, road generation,
cut/fill calculation, rate limiting, result caching) together with proofs
of the specification claims about them.

Conventions:
* Python floats are modelled as exact rationals (`ℚ`); the claims under
  scrutiny are formula-level, not rounding-level.
* `int(x)` (truncation toward zero) is modelled by `pyInt`.
* The planar-geometry engine (GEOS/shapely) and the host float `sqrt` are
  external dependencies of the repository (spec §6); they enter the
  embedding as explicit function parameters, never as stubs of in-repo
  code.
* Stateful services are modelled by explicit state passing: each operation
  returns its result together with the updated shared structure.
-/

/-- A point in longitude/latitude coordinate space, as used throughout the
backend (`(x, y)` pairs of Python floats). -/
abbrev Pt := ℚ × ℚ

/-- Python `int(q)`: truncation toward zero of a rational. -/
def pyInt (q : ℚ) : ℤ := Int.tdiv q.num q.den

/-- A bounding box `(minx, miny, maxx, maxy)`. -/
structure Bounds where
  minx : ℚ
  miny : ℚ
  maxx : ℚ
  maxy : ℚ

/-- A 2-D numpy array of floats: a shape together with a total cell
function (cells are only ever read after an explicit bounds check in the
code being modelled). -/
structure Raster where
  rows : ℕ
  cols : ℕ
  val : ℕ → ℕ → ℚ

/-- The `1 degree ≈ 364,000 feet` conversion constant defined (with the
same literal) in the asset placer, the road generator and the cut/fill
calculator. -/
def FEET_TO_DEGREES : ℚ := 1 / 364000

/-! ## Terrain analyzer (src/backend/src/services/terrain_analyzer.py) -/

namespace TerrainAnalyzer

/-- Embedding of `TerrainAnalyzer.get_terrain_suitability_score`
(terrain_analyzer.py lines 283–340): suitability of a single point against
co-registered slope/aspect rasters.  The `dem` argument is accepted but,
as in the source, never read. -/
def get_terrain_suitability_score (point : Pt) (slope aspect : Raster)
    (_dem : Raster) (bounds : Bounds) (resolution : ℚ) : ℚ :=
  let x := point.1
  let y := point.2
  -- Check if point is within bounds
  if ¬ (bounds.minx ≤ x ∧ x ≤ bounds.maxx ∧ bounds.miny ≤ y ∧ y ≤ bounds.maxy) then 0
  else
    -- Convert point to grid indices
    let i : ℤ := pyInt ((y - bounds.miny) / resolution)
    let j : ℤ := pyInt ((x - bounds.minx) / resolution)
    if i < 0 ∨ (slope.rows : ℤ) ≤ i ∨ j < 0 ∨ (slope.cols : ℤ) ≤ j then 0
    else
      let point_slope := slope.val i.toNat j.toNat
      let point_aspect := aspect.val i.toNat j.toNat
      -- Score based on slope (prefer flatter areas, max 15% slope)
      let slope_score : ℚ := if point_slope > 15 then 0 else 1 - point_slope / 15
      -- Aspect score (prefer south-facing; south = 180 degrees)
      let aspect_diff : ℚ := |point_aspect - 180|
      let aspect_diff : ℚ := if aspect_diff > 180 then 360 - aspect_diff else aspect_diff
      let aspect_score : ℚ := 1 - aspect_diff / 180
      -- Combined score (slope is more important)
      (4/5) * slope_score + (1/5) * aspect_score

end TerrainAnalyzer

/-! ## Expiring cache (src/backend/src/utils/cache.py) -/

namespace CacheUtils

/-- One entry of the process-wide `_cache` dict: the stored Python object
(`none` models Python `None`), its expiry time and creation time. -/
structure CacheEntry (V : Type) where
  value : Option V
  expires_at : ℚ
  created_at : ℚ

/-- The `_cache` dict, as a key-indexed partial map. -/
def CacheMap (V : Type) := String → Option (CacheEntry V)

/-- Embedding of `get_cached` (cache.py lines 33–43): return the stored value of an
unexpired entry, deleting an expired one; a miss returns `None`.  The
result is paired with the updated map. -/
def get_cached {V : Type} (cache : CacheMap V) (key : String) (now : ℚ) :
    Option V × CacheMap V :=
  match cache key with
  | some entry =>
      if now < entry.expires_at then (entry.value, cache)
      else (none, fun k => if k = key then none else cache k)
  | none => (none, cache)

/-- Embedding of `set_cached` (cache.py lines 46–53). -/
def set_cached {V : Type} (cache : CacheMap V) (key : String) (value : Option V)
    (ttl now : ℚ) : CacheMap V :=
  fun k => if k = key then some ⟨value, now + ttl, now⟩ else cache k

/-- One invocation of a function wrapped by the `cached` decorator
(cache.py lines 67–90), at its argument-derived cache key: consult
`get_cached`; on a hit that `is not None` return it, otherwise run the
function, store its result with `set_cached` and return it.  The boolean
records whether the wrapped function was executed. -/
def cachedCall {V : Type} (f : Unit → Option V) (cache : CacheMap V)
    (key : String) (ttl now : ℚ) : Option V × CacheMap V × Bool :=
  let r := get_cached cache key now
  match r.1 with
  | some x => (some x, r.2, false)
  | none =>
      let result := f ()
      (result, set_cached r.2 key result ttl now, true)

end CacheUtils

/-! ## Rate limiter (src/backend/src/middleware/rate_limit.py) -/

namespace RateLimit

/-- One entry of the `RATE_LIMITS` table. -/
structure LimitConfig where
  max_requests : ℕ
  window_seconds : ℚ
deriving DecidableEq

/-- The `RATE_LIMITS` table (rate_limit.py lines 14–19). -/
def RATE_LIMITS : List (String × LimitConfig) :=
  [("/optimize", ⟨10, 60⟩), ("/analyze", ⟨20, 60⟩),
   ("/generate-roads", ⟨20, 60⟩), ("/upload", ⟨5, 60⟩)]

/-- Python `sub in s` for strings: contiguous substring test. -/
def strContains (s sub : String) : Bool :=
  (List.range (s.toList.length + 1)).any
    (fun i => sub.toList.isPrefixOf (s.toList.drop i))

/-- The config-selection loop of `check_rate_limit` (lines 32–37): the
first table entry whose endpoint string occurs in the request path. -/
def findLimitConfig (path : String) : Option LimitConfig :=
  (RATE_LIMITS.find? (fun ec => strContains path ec.1)).map (fun ec => ec.2)

/-- The critical section of `check_rate_limit` (lines 48–72) for one
`"<client-ip>:<path>"` entry: prune timestamps at or before
`now − window`, reject when the pruned count already meets the limit,
otherwise record `now`.  Returns (admitted?, new timestamp list). -/
def check_rate_limit_step (cfg : LimitConfig) (state : List ℚ) (now : ℚ) :
    Bool × List ℚ :=
  let window_start := now - cfg.window_seconds
  let pruned := state.filter (fun req_time => decide (window_start < req_time))
  if cfg.max_requests ≤ pruned.length then (false, pruned)
  else (true, pruned ++ [now])

/-- Embedding of `check_rate_limit` for a fixed client: path-based config lookup plus
the critical section; unmatched paths are unthrottled. -/
def check_rate_limit (path : String) (state : List ℚ) (now : ℚ) :
    Bool × List ℚ :=
  match findLimitConfig path with
  | none => (true, state)
  | some cfg => check_rate_limit_step cfg state now

/-- A sequence of throttled calls at times `ts` starting from timestamp
state `state`; yields each call's time and verdict. -/
def runRateLimit (cfg : LimitConfig) : List ℚ → List ℚ → List (ℚ × Bool)
  | [], _ => []
  | t :: rest, state =>
      let r := check_rate_limit_step cfg state t
      (t, r.1) :: runRateLimit cfg rest r.2

/-- A sequence of `check_rate_limit` calls from one client to one path. -/
def runCheckRateLimit (path : String) : List ℚ → List ℚ → List (ℚ × Bool)
  | [], _ => []
  | t :: rest, state =>
      let r := check_rate_limit path state t
      (t, r.1) :: runCheckRateLimit path rest r.2

/-- Times of the admitted calls of a run. -/
def admittedTimes (log : List (ℚ × Bool)) : List ℚ :=
  (log.filter (fun e => e.2)).map (fun e => e.1)

/-- Number of timestamps falling in the half-open window `(w, w + win]`. -/
def countWindow (l : List ℚ) (w win : ℚ) : ℕ :=
  (l.filter (fun t => decide (w < t ∧ t ≤ w + win))).length

end RateLimit

/-! ## Optimize handler result cache (src/backend/src/handlers/optimize.py) -/

namespace OptimizeHandler

/-- Python-dict insertion into the insertion-ordered `_request_results`
map: an existing key is updated in place (keeping its position), a new key
is appended at the end. -/
def dictInsert {R : Type} (d : List (String × R)) (k : String) (v : R) :
    List (String × R) :=
  if (d.lookup k).isSome then
    d.map (fun p => if p.1 = k then (k, v) else p)
  else d ++ [(k, v)]

/-- The result-caching block of `optimize_layout` (optimize.py lines
176–184): store the result under the request hash, then, when more than
10 entries remain, delete `next(iter(_request_results))` — the oldest
entry in insertion order. -/
def cache_result {R : Type} (results : List (String × R))
    (request_hash : String) (result : R) : List (String × R) :=
  let results := dictInsert results request_hash result
  if 10 < results.length then results.drop 1 else results

end OptimizeHandler

/-! ## Cut/fill calculator (src/backend/src/services/cutfill_calculator.py) -/

/-- A 2-D float array held as a list of rows. -/
abbrev Grid := List (List ℚ)

namespace CutFillCalculator

/-- Cell read `g[i, j]` (reads in the modelled code are bounds-checked). -/
def gridGet (g : Grid) (i j : ℕ) : ℚ := (g.getD i []).getD j 0

/-- Cell write `g[i, j] = v`. -/
def gridSet (g : Grid) (i j : ℕ) (v : ℚ) : Grid :=
  match g.get? i with
  | some row => g.set i (row.set j v)
  | none => g

/-- Python `range(a, b)` over integers. -/
def pyRange (a b : ℤ) : List ℤ :=
  if a < b then (List.range (b - a).toNat).map (fun k => a + (k : ℤ)) else []

/-- Python float truthiness of an optional number: `None` and `0` are
falsy (`if default_elevation:` / `if pad_elevation:`). -/
def pyTruthy (q : Option ℚ) : Bool :=
  match q with
  | none => false
  | some v => decide (v ≠ 0)

/-- One entry of `proposed_grades['assets']`. -/
structure AssetPad where
  x : ℚ
  y : ℚ
  pad_elevation : Option ℚ
  pad_size : ℚ

/-- One entry of `proposed_grades['roads']`. -/
structure RoadGrade where
  centerline : List Pt
  width : ℚ
  elevations : List ℚ

/-- The `proposed_grades` instruction dict. -/
structure ProposedGrades where
  default_elevation : Option ℚ
  baseline_dem : Option Grid
  assets : List AssetPad
  roads : List RoadGrade

/-- The property boundary as the cut/fill service uses it: a containment
test plus a (planar) area.  A `none` stands for Python `None` or an empty
(falsy) polygon. -/
structure MaskPoly where
  contains : Pt → Bool
  area : ℚ

/-- The calculator object: `grid_resolution` in feet (constructor default
10). -/
structure CFCalc where
  grid_resolution : ℚ

/-- Write `e` into every cell `(i+di, j+dj)`, `di, dj ∈ range(-r, r+1)`,
that passes the shape check (the pad/road stamping loops). -/
def stampSquare (g : Grid) (rows cols : ℕ) (i j r : ℤ) (e : ℚ) : Grid :=
  (pyRange (-r) (r + 1)).foldl (fun g di =>
    (pyRange (-r) (r + 1)).foldl (fun g dj =>
      let ni := i + di
      let nj := j + dj
      if 0 ≤ ni ∧ ni < (rows : ℤ) ∧ 0 ≤ nj ∧ nj < (cols : ℤ) then
        gridSet g ni.toNat nj.toNat e
      else g) g) g

/-- Embedding of `CutFillCalculator._create_proposed_dem` (cutfill_calculator.py lines
108–188). -/
def _create_proposed_dem (c : CFCalc) (proposed_grades : ProposedGrades)
    (dem_shape : ℕ × ℕ) (bounds : Bounds) : Grid :=
  let rows := dem_shape.1
  let cols := dem_shape.2
  let proposed_dem : Grid := List.replicate rows (List.replicate cols 0)
  -- default proposed elevation (match existing or specified)
  let proposed_dem :=
    if pyTruthy proposed_grades.default_elevation then
      List.replicate rows
        (List.replicate cols (proposed_grades.default_elevation.getD 0))
    else
      -- use existing DEM as baseline
      proposed_grades.baseline_dem.getD proposed_dem
  -- apply asset pad elevations
  let proposed_dem := proposed_grades.assets.foldl (fun g asset =>
    if pyTruthy asset.pad_elevation then
      let grid_res_deg := c.grid_resolution * FEET_TO_DEGREES
      let pad_size_deg := asset.pad_size * FEET_TO_DEGREES
      let i := pyInt ((asset.y - bounds.miny) / grid_res_deg)
      let j := pyInt ((asset.x - bounds.minx) / grid_res_deg)
      let pad_radius := pyInt (pad_size_deg / grid_res_deg)
      stampSquare g rows cols i j pad_radius (asset.pad_elevation.getD 0)
    else g) proposed_dem
  -- apply road grades
  proposed_grades.roads.foldl (fun g road =>
    road.centerline.enum.foldl (fun g ixpt =>
      let x := ixpt.2.1
      let y := ixpt.2.2
      let elevation :=
        if ixpt.1 < road.elevations.length then road.elevations.getD ixpt.1 0
        else if pyTruthy proposed_grades.default_elevation then
          proposed_grades.default_elevation.getD 0
        else 0
      let grid_res_deg := c.grid_resolution * FEET_TO_DEGREES
      let road_width_deg := road.width * FEET_TO_DEGREES
      let i := pyInt ((y - bounds.miny) / grid_res_deg)
      let j := pyInt ((x - bounds.minx) / grid_res_deg)
      let road_radius := pyInt (road_width_deg / (2 * grid_res_deg))
      stampSquare g rows cols i j road_radius elevation) g) proposed_dem

/-- Result record of `calculate_volumes` (volume fields, area breakdown,
cut/fill maps). -/
structure VolumeResult where
  cut_volume_ft3 : ℚ
  fill_volume_ft3 : ℚ
  net_volume_ft3 : ℚ
  cut_volume_yd3 : ℚ
  fill_volume_yd3 : ℚ
  net_volume_yd3 : ℚ
  area_breakdown : Option (ℚ × ℚ × ℚ × ℚ)
  cut_map : Grid
  fill_map : Grid

/-- The boundary-mask test of the volume loop (cutfill_calculator.py
lines 55–62): the grid cell's point against the (truthy) property
boundary. -/
def inMaskOf (c : CFCalc) (bounds : Bounds)
    (property_boundary : Option MaskPoly) (i j : ℕ) : Bool :=
  match property_boundary with
  | none => true
  | some pb =>
      let grid_res_deg := c.grid_resolution * FEET_TO_DEGREES
      pb.contains (bounds.minx + (j : ℚ) * grid_res_deg,
                   bounds.miny + (i : ℚ) * grid_res_deg)

/-- The `cut_volumes` array of the volume loop (lines 47–66): per-cell
depth of material to remove; masked or non-cut cells keep their zero
initialisation. -/
def cutMapOf (c : CFCalc) (dem proposed_dem : Grid) (bounds : Bounds)
    (property_boundary : Option MaskPoly) : Grid :=
  (List.range dem.length).map (fun i =>
    (List.range ((dem.getD 0 []).length)).map (fun j =>
      if inMaskOf c bounds property_boundary i j ∧
         gridGet proposed_dem i j < gridGet dem i j then
        gridGet dem i j - gridGet proposed_dem i j
      else 0))

/-- The `fill_volumes` array of the volume loop (lines 48, 68–70). -/
def fillMapOf (c : CFCalc) (dem proposed_dem : Grid) (bounds : Bounds)
    (property_boundary : Option MaskPoly) : Grid :=
  (List.range dem.length).map (fun i =>
    (List.range ((dem.getD 0 []).length)).map (fun j =>
      if inMaskOf c bounds property_boundary i j ∧
         gridGet dem i j < gridGet proposed_dem i j then
        gridGet proposed_dem i j - gridGet dem i j
      else 0))

/-- Embedding of `CutFillCalculator.calculate_volumes` (cutfill_calculator.py lines
18–106).  Cells outside the (truthy) property boundary are skipped, i.e.
left at their zero initialisation. -/
def calculate_volumes (c : CFCalc) (dem : Grid)
    (proposed_grades : ProposedGrades) (bounds : Bounds)
    (property_boundary : Option MaskPoly) : VolumeResult :=
  let rows := dem.length
  let cols := (dem.getD 0 []).length
  let proposed_dem := _create_proposed_dem c proposed_grades (rows, cols) bounds
  let cut_volumes : Grid := cutMapOf c dem proposed_dem bounds property_boundary
  let fill_volumes : Grid := fillMapOf c dem proposed_dem bounds property_boundary
  let cell_area := c.grid_resolution * c.grid_resolution
  let total_cut := (cut_volumes.map List.sum).sum * cell_area
  let total_fill := (fill_volumes.map List.sum).sum * cell_area
  let net_volume := total_cut - total_fill
  let area_breakdown : Option (ℚ × ℚ × ℚ × ℚ) :=
    match property_boundary with
    | none => none
    | some pb =>
        let total_area := pb.area
        some (total_area, total_area / 43560,
          if 0 < total_area then (total_cut / 27) / (total_area / 43560) else 0,
          if 0 < total_area then (total_fill / 27) / (total_area / 43560) else 0)
  { cut_volume_ft3 := total_cut,
    fill_volume_ft3 := total_fill,
    net_volume_ft3 := net_volume,
    cut_volume_yd3 := total_cut / 27,
    fill_volume_yd3 := total_fill / 27,
    net_volume_yd3 := net_volume / 27,
    area_breakdown := area_breakdown,
    cut_map := cut_volumes,
    fill_map := fill_volumes }

/-- Final label of one cell of the visualization raster: `0` initial,
overwritten by `1` on cut, then `2` on fill, then `3` on the balanced
check — last write wins. -/
def vizCell (c f : ℚ) : ℚ :=
  let v : ℚ := 0
  let v := if 0 < c then 1 else v
  let v := if 0 < f then 2 else v
  if |c - f| < 1/10 then 3 else v

/-- Result record of `generate_visualization_map`. -/
structure VizResult where
  visualization : Grid
  bounds : Bounds
  legend : List (ℕ × String)

/-- Embedding of `CutFillCalculator.generate_visualization_map` (cutfill_calculator.py
lines 190–226). -/
def generate_visualization_map (cut_map fill_map : Grid) (bounds : Bounds) :
    VizResult :=
  { visualization :=
      List.zipWith (fun rc rf => List.zipWith vizCell rc rf) cut_map fill_map,
    bounds := bounds,
    legend := [(0, "No change"), (1, "Cut area"), (2, "Fill area"),
               (3, "Balanced area")] }

end CutFillCalculator

/-! ## Asset placer (src/backend/src/services/asset_placer.py) -/

namespace AssetPlacer

/-- Operations of the planar-geometry engine (GEOS via shapely), an
external dependency of the repository (spec §6), over an abstract region
type `R`.  The fallible operations (`buffer`, `unary_union`) model the
`try/except` sites in the service. -/
structure GeomOps (R : Type) where
  buffer : R → ℚ → Except Unit R
  isEmpty : R → Bool
  isValid : R → Bool
  containsPt : R → Pt → Bool
  containsR : R → R → Bool
  intersects : R → R → Bool
  unionAll : List R → Except Unit R
  boundsOf : R → Bounds
  centroid : R → Pt
  mkBox : ℚ → ℚ → ℚ → ℚ → R

/-- The boundary-shrinking step of `generate_candidate_locations`
(asset_placer.py lines 52–63): inward buffer; if that is empty or invalid
retry with a tenth of the buffer; on an empty retry, or any exception,
fall back to the original boundary. -/
def bufferedBoundaryOf {R : Type} (G : GeomOps R) (property_boundary : R)
    (buffer_boundary_deg : ℚ) : R :=
  match G.buffer property_boundary (-buffer_boundary_deg) with
  | .error _ => property_boundary
  | .ok b =>
      if G.isEmpty b || !(G.isValid b) then
        match G.buffer property_boundary (-buffer_boundary_deg * (1/10)) with
        | .error _ => property_boundary
        | .ok b2 => if G.isEmpty b2 then property_boundary else b2
      else b

/-- Exclusion buffering and union (lines 65–80): grow each zone (falling
back to the raw zone on an exception), then union them — a union failure
(or absence of zones) drops the exclusion check. -/
def exclusionUnionOf {R : Type} (G : GeomOps R) (exclusion_zones : List R)
    (buffer_exclusion_deg : ℚ) : Option R :=
  let buffered_exclusions := exclusion_zones.map (fun zone =>
    match G.buffer zone buffer_exclusion_deg with
    | .ok z => z
    | .error _ => zone)
  if buffered_exclusions.isEmpty then none
  else
    match G.unionAll buffered_exclusions with
    | .ok u => some u
    | .error _ => none

/-- The grid-coarsening step (lines 88–99): estimate the candidate count
from the bounding box; when the estimate exceeds 10,000, stretch the grid
step by `(estimate/10000) ** 0.5`.  `sqrtF` is the host float square
root. -/
def effectiveGridRes {R : Type} (G : GeomOps R) (sqrtF : ℚ → ℚ)
    (buffered_boundary : R) (grid_resolution_deg : ℚ) : ℚ :=
  let b := G.boundsOf buffered_boundary
  let estimated_points := pyInt ((b.maxx - b.minx) / grid_resolution_deg *
    ((b.maxy - b.miny) / grid_resolution_deg))
  if 10000 < estimated_points then
    grid_resolution_deg * sqrtF ((estimated_points : ℚ) / 10000)
  else grid_resolution_deg

/-- The grid walk `x = minx; while x <= maxx: ...; x += step` for a
positive step: `lo, lo+step, …` while `≤ hi`. -/
def whileRange (lo hi step : ℚ) : List ℚ :=
  if 0 < step ∧ lo ≤ hi then
    (List.range (⌊(hi - lo) / step⌋.toNat + 1)).map (fun k => lo + (k : ℚ) * step)
  else []

/-- The acceptance test of one grid point (lines 107–114): inside the
buffered boundary and not inside the exclusion union. -/
def candidateAccept {R : Type} (G : GeomOps R) (buffered_boundary : R)
    (exclusion_union : Option R) (p : Pt) : Bool :=
  G.containsPt buffered_boundary p &&
    (match exclusion_union with
     | none => true
     | some u => !(G.containsPt u p))

/-- The candidate-collection loop (lines 101–127): accept grid points in
walk order, returning the instant the 10,000th candidate is accepted. -/
def collectLoop (accept : Pt → Bool) : List Pt → List Pt → List Pt
  | [], acc => acc
  | p :: rest, acc =>
      if accept p then
        let acc := acc ++ [p]
        if 10000 ≤ acc.length then acc else collectLoop accept rest acc
      else collectLoop accept rest acc

/-- Embedding of `AssetPlacer.generate_candidate_locations` (asset_placer.py lines
23–127). -/
def generate_candidate_locations {R : Type} (G : GeomOps R) (sqrtF : ℚ → ℚ)
    (property_boundary : R) (exclusion_zones : List R)
    (grid_resolution buffer_boundary buffer_exclusion : ℚ) : List Pt :=
  let buffer_boundary_deg := buffer_boundary * FEET_TO_DEGREES
  let buffer_exclusion_deg := buffer_exclusion * FEET_TO_DEGREES
  let grid_resolution_deg := grid_resolution * FEET_TO_DEGREES
  let buffered_boundary := bufferedBoundaryOf G property_boundary buffer_boundary_deg
  let exclusion_union := exclusionUnionOf G exclusion_zones buffer_exclusion_deg
  let b := G.boundsOf buffered_boundary
  let grid_resolution_deg := effectiveGridRes G sqrtF buffered_boundary grid_resolution_deg
  let xs := whileRange b.minx b.maxx grid_resolution_deg
  let ys := whileRange b.miny b.maxy grid_resolution_deg
  collectLoop (candidateAccept G buffered_boundary exclusion_union)
    (xs.flatMap (fun x => ys.map (fun y => (x, y)))) []

/-- An asset-type template: `dimensions` (feet) and attributes. -/
structure AssetType where
  length : ℚ
  width : ℚ
  attributes : List (String × ℚ)

/-- The constraint figures passed to `check_constraints`. -/
structure ConstraintConfig where
  buffer_boundary : ℚ
  buffer_exclusion : ℚ
  min_spacing : ℚ

/-- One placed asset, as built by `place_assets`. -/
structure PlacedAsset where
  type : String
  x : ℚ
  y : ℚ
  score : ℚ
  dim_length : ℚ
  dim_width : ℚ
  attributes : List (String × ℚ)
deriving DecidableEq

/-- Embedding of `AssetPlacer.check_constraints` (asset_placer.py lines 129–201). -/
def check_constraints {R : Type} (G : GeomOps R) (sqrtF : ℚ → ℚ)
    (location : Pt) (asset_type : AssetType) (property_boundary : R)
    (exclusion_zones : List R) (placed_assets : List PlacedAsset)
    (constraints : ConstraintConfig) : Bool × List String :=
  let x := location.1
  let y := location.2
  let length_deg := asset_type.length * FEET_TO_DEGREES
  let width_deg := asset_type.width * FEET_TO_DEGREES
  let half_length := length_deg / 2
  let half_width := width_deg / 2
  let asset_footprint := G.mkBox (x - half_length) (y - half_width)
      (x + half_length) (y + half_width)
  -- boundary constraint
  let buffer_boundary_deg := constraints.buffer_boundary * FEET_TO_DEGREES
  let buffered_boundary :=
    match G.buffer property_boundary (-buffer_boundary_deg) with
    | .error _ => property_boundary
    | .ok b => if G.isEmpty b then property_boundary else b
  let violations : List String :=
    if !(G.containsR buffered_boundary asset_footprint) then
      ["Asset extends beyond property boundary buffer"]
    else []
  -- exclusion-zone constraint
  let buffer_exclusion_deg := constraints.buffer_exclusion * FEET_TO_DEGREES
  let violations := exclusion_zones.foldl (fun vs zone =>
    match G.buffer zone buffer_exclusion_deg with
    | .ok buffered_zone =>
        if G.intersects buffered_zone asset_footprint then
          vs ++ ["Asset violates exclusion zone buffer"]
        else vs
    | .error _ =>
        if G.intersects zone asset_footprint then
          vs ++ ["Asset violates exclusion zone buffer"]
        else vs) violations
  -- spacing constraint
  let min_spacing_deg := constraints.min_spacing * FEET_TO_DEGREES
  let violations := placed_assets.foldl (fun vs placed =>
    let distance := sqrtF ((x - placed.x)^2 + (y - placed.y)^2)
    if distance < min_spacing_deg then
      vs ++ ["Asset too close to existing asset"]
    else vs) violations
  (violations.length = 0, violations)

/-- The `terrain_data` dict as consumed by `calculate_location_score`
(`None` raster entries model omitted "large" arrays). -/
structure TerrainData where
  slope : Option Raster
  aspect : Option Raster
  dem : Option Raster
  bounds : Option Bounds
  dem_resolution : ℚ

/-- Embedding of `AssetPlacer.calculate_location_score` (asset_placer.py lines
203–277), with the fixed default weights {terrain 0.4, distance 0.2,
compliance 0.3, spacing 0.1}. -/
def calculate_location_score {R : Type} (G : GeomOps R) (sqrtF : ℚ → ℚ)
    (location : Pt) (_asset_type : AssetType) (property_boundary : R)
    (entry_point : Pt) (terrain_data : Option TerrainData) : ℚ :=
  let terrain_score : ℚ :=
    match terrain_data with
    | none => 1/2
    | some td =>
        match td.slope, td.aspect, td.dem, td.bounds with
        | some slope, some aspect, some dem, some bounds =>
            TerrainAnalyzer.get_terrain_suitability_score location slope aspect
              dem bounds td.dem_resolution
        | _, _, _, _ => 1/2   -- large arrays not serialized
  let b := G.boundsOf property_boundary
  let max_distance := b.maxx - b.minx
  let distance := sqrtF ((location.1 - entry_point.1)^2 +
    (location.2 - entry_point.2)^2)
  let distance_score := 1 - min (distance / max_distance) 1
  (2/5) * terrain_score + (1/5) * distance_score + (3/10) * 1 + (1/10) * (1/2)

/-- One asset requirement. -/
structure AssetReq where
  type : String
  count : ℕ

/-- The configuration `place_assets` reads through `ConfigLoader`: the
asset-type templates and the three constraint figures (YAML defaults 50,
100, 50). -/
structure PlacerConfig where
  get_asset_type : String → Option AssetType
  buffer_boundary : ℚ
  buffer_exclusion : ℚ
  min_spacing : ℚ

/-- Embedding of `AssetPlacer.place_assets` (asset_placer.py lines 279–390): greedy
per-requirement placement — candidates, constraint filter against the
already-placed assets, scoring, stable descending sort, take the top
`count`. -/
def place_assets {R : Type} (G : GeomOps R) (sqrtF : ℚ → ℚ)
    (cfg : PlacerConfig) (property_boundary : R) (exclusion_zones : List R)
    (asset_requirements : List AssetReq) (entry_point : Pt)
    (terrain_data : Option TerrainData) : List PlacedAsset :=
  let constraint_config : ConstraintConfig :=
    ⟨cfg.buffer_boundary, cfg.buffer_exclusion, cfg.min_spacing⟩
  asset_requirements.foldl (fun placed_assets req =>
    match cfg.get_asset_type req.type with
    | none => placed_assets    -- unknown asset type: skipped with a warning
    | some asset_type =>
        let candidates := generate_candidate_locations G sqrtF property_boundary
          exclusion_zones 10 cfg.buffer_boundary cfg.buffer_exclusion
        -- fallback: property centroid when no candidates were found
        let candidates :=
          if candidates.length = 0 then [G.centroid property_boundary]
          else candidates
        let scored_candidates := candidates.filterMap (fun candidate =>
          if (check_constraints G sqrtF candidate asset_type property_boundary
                exclusion_zones placed_assets constraint_config).1 then
            some (candidate, calculate_location_score G sqrtF candidate
              asset_type property_boundary entry_point terrain_data)
          else none)
        -- stable sort by score, highest first (`list.sort(reverse=True)`)
        let scored_candidates :=
          scored_candidates.mergeSort (fun a b => decide (b.2 ≤ a.2))
        placed_assets ++ (scored_candidates.take req.count).map (fun cs =>
          { type := req.type, x := cs.1.1, y := cs.1.2, score := cs.2,
            dim_length := asset_type.length, dim_width := asset_type.width,
            attributes := asset_type.attributes })) []

end AssetPlacer

/-! ## Road generator (src/backend/src/services/road_generator.py) -/

namespace RoadGenerator

/-- The fixed constants of `RoadGenerator.__init__`. -/
structure RGen where
  max_grade : ℚ
  min_width_access : ℚ
  min_width_secondary : ℚ
  min_turning_radius : ℚ
  avoid_slope_above : ℚ

/-- The constructor defaults: 8%, 20ft, 12ft, 25ft, 15%. -/
def RGen.mkDefault : RGen := ⟨8, 20, 12, 25, 15⟩

/-- The property boundary / an exclusion zone as the road generator uses
it: a containment test plus the centroid used for snapping. -/
structure PolyGeom where
  contains : Pt → Bool
  centroid : Pt

/-- Embedding of `RoadGenerator.calculate_grade` (road_generator.py lines 21–51). -/
def calculate_grade (sqrtF : ℚ → ℚ) (point1 point2 : ℚ × ℚ × ℚ) : ℚ :=
  let horizontal_dist := sqrtF ((point2.1 - point1.1)^2 +
    (point2.2.1 - point1.2.1)^2)
  if horizontal_dist = 0 then 0
  else (point2.2.2 - point1.2.2) / horizontal_dist * 100

/-- Embedding of `RoadGenerator.get_elevation_at_point` (lines 53–71). -/
def get_elevation_at_point (point : Pt) (dem : Raster) (bounds : Bounds)
    (resolution : ℚ) : ℚ :=
  let i := pyInt ((point.2 - bounds.miny) / resolution)
  let j := pyInt ((point.1 - bounds.minx) / resolution)
  if i < 0 ∨ (dem.rows : ℤ) ≤ i ∨ j < 0 ∨ (dem.cols : ℤ) ≤ j then 0
  else dem.val i.toNat j.toNat

/-- Lexicographic comparison of `(f, (x, y))` heap entries, as Python's
`heapq` compares its tuples (`inf` modelled by `⊤`). -/
def entryLE (a b : WithTop ℚ × Pt) : Bool :=
  decide (a.1 < b.1) || (decide (a.1 = b.1) &&
    (decide (a.2.1 < b.2.1) || (decide (a.2.1 = b.2.1) &&
      decide (a.2.2 ≤ b.2.2))))

/-- Pop the least element of the open list (`heapq.heappop`). -/
def popMin : List (WithTop ℚ × Pt) →
    Option ((WithTop ℚ × Pt) × List (WithTop ℚ × Pt))
  | [] => none
  | x :: xs =>
      match popMin xs with
      | none => some (x, [])
      | some (m, rest) => if entryLE x m then some (x, xs) else some (m, x :: rest)

/-- Assoc-list update mirroring Python-dict assignment. -/
def assocSet {α β : Type} [DecidableEq α] (l : List (α × β)) (k : α) (v : β) :
    List (α × β) :=
  if (l.lookup k).isSome then l.map (fun p => if p.1 = k then (k, v) else p)
  else l ++ [(k, v)]

/-- The `cost` closure of `a_star_pathfinding` (lines 117–149): step
distance times a terrain multiplier; `float('inf')` (modelled `⊤`) inside
an exclusion zone. -/
def aStarCost (rg : RGen) (sqrtF : ℚ → ℚ) (exclusion_zones : List PolyGeom)
    (dem : Option Raster) (bounds : Option Bounds) (resolution : ℚ)
    (current next_point : Pt) : WithTop ℚ :=
  let distance := sqrtF ((current.1 - next_point.1)^2 +
    (current.2 - next_point.2)^2)
  if exclusion_zones.any (fun zone => zone.contains next_point) then ⊤
  else
    let terrain_cost : ℚ :=
      match dem, bounds with
      | some dem, some bounds =>
          let elev_current := get_elevation_at_point current dem bounds resolution
          let elev_next := get_elevation_at_point next_point dem bounds resolution
          let grade := calculate_grade sqrtF
            (current.1, current.2, elev_current)
            (next_point.1, next_point.2, elev_next)
          if rg.max_grade < |grade| then 10
          else if rg.avoid_slope_above < |grade| then 5
          else 1 + |grade| / 10
      | _, _ => 1
    ((distance * terrain_cost : ℚ) : WithTop ℚ)

/-- Path reconstruction via back-pointers (lines 194–199).  In the source
the back-pointer chain follows strictly improving g-scores, so it visits
each `came_from` key at most once; `came_from.length` steps therefore
suffice as the recursion budget. -/
def reconstructPath (came_from : List (Pt × Pt)) : ℕ → Pt → List Pt → List Pt
  | 0, _, path => path.reverse
  | fuel + 1, current, path =>
      match came_from.lookup current with
      | some prev => reconstructPath came_from fuel prev (path ++ [prev])
      | none => path.reverse

/-- The fixed inputs of one A* search. -/
structure AStarCtx where
  rg : RGen
  sqrtF : ℚ → ℚ
  property_boundary : PolyGeom
  exclusion_zones : List PolyGeom
  dem : Option Raster
  bounds : Option Bounds
  resolution : ℚ
  grid_size : ℚ
  goal : Pt

/-- The mutable A* bookkeeping. -/
structure AStarState where
  open_set : List (WithTop ℚ × Pt)
  came_from : List (Pt × Pt)
  g_score : List (Pt × WithTop ℚ)
  f_score : List (Pt × WithTop ℚ)
  visited : List Pt

/-- One node expansion: relax the 8-connected neighbourhood at the grid
step (lines 203–222).  `current` is always a key of `g_score` when this
runs; the `getD 0` default is unreachable. -/
def expandNeighbors (ctx : AStarCtx) (current : Pt) (st : AStarState) :
    AStarState :=
  (([-ctx.grid_size, 0, ctx.grid_size].flatMap (fun dx =>
    [-ctx.grid_size, 0, ctx.grid_size].map (fun dy => (dx, dy))))).foldl
    (fun st d =>
      if d.1 = 0 ∧ d.2 = 0 then st
      else
        let neighbor : Pt := (current.1 + d.1, current.2 + d.2)
        if !(ctx.property_boundary.contains neighbor) then st
        else
          let tentative_g := ((st.g_score.lookup current).getD 0) +
            aStarCost ctx.rg ctx.sqrtF ctx.exclusion_zones ctx.dem ctx.bounds
              ctx.resolution current neighbor
          if (st.g_score.lookup neighbor).isNone ∨
             tentative_g < (st.g_score.lookup neighbor).getD ⊤ then
            let f := tentative_g + ((ctx.sqrtF ((neighbor.1 - ctx.goal.1)^2 +
              (neighbor.2 - ctx.goal.2)^2) : ℚ) : WithTop ℚ)
            { open_set := st.open_set ++ [(f, neighbor)],
              came_from := assocSet st.came_from neighbor current,
              g_score := assocSet st.g_score neighbor tentative_g,
              f_score := assocSet st.f_score neighbor f,
              visited := st.visited }
          else st) st

/-- The bounded A* main loop (lines 182–223): `fuel` is the remaining
iteration budget out of `max_iterations = 10000`.  Returns the found path
(or `none`) together with the final value of the `iterations` counter. -/
def aStarLoop (ctx : AStarCtx) : ℕ → ℕ → AStarState → Option (List Pt) × ℕ
  | 0, iterations, _ => (none, iterations)
  | fuel + 1, iterations, st =>
      match popMin st.open_set with
      | none => (none, iterations)
      | some (entry, rest) =>
          let iterations := iterations + 1
          let current := entry.2
          if current ∈ st.visited then
            aStarLoop ctx fuel iterations { st with open_set := rest }
          else
            let st' : AStarState :=
              { st with open_set := rest, visited := st.visited ++ [current] }
            let goal_threshold := max (ctx.grid_size * 2) (1/10000)
            if ctx.sqrtF ((current.1 - ctx.goal.1)^2 +
                (current.2 - ctx.goal.2)^2) < goal_threshold then
              (some (reconstructPath st'.came_from st'.came_from.length current
                [ctx.goal]), iterations)
            else
              aStarLoop ctx fuel iterations (expandNeighbors ctx current st')

/-- Embedding of `RoadGenerator.a_star_pathfinding` (road_generator.py lines 73–225):
resolution unit heuristic, snapping of out-of-boundary endpoints to the
centroid, then the capped search.  The second component is the number of
main-loop iterations executed. -/
def a_star_pathfinding (rg : RGen) (sqrtF : ℚ → ℚ) (start goal : Pt)
    (property_boundary : PolyGeom) (exclusion_zones : List PolyGeom)
    (dem : Option Raster) (bounds : Option Bounds) (resolution : ℚ) :
    Option (List Pt) × ℕ :=
  -- if resolution is very small (< 0.001) assume degrees, else feet
  let grid_size := if 1/1000 < resolution then resolution * FEET_TO_DEGREES
                   else resolution
  let start := if property_boundary.contains start then start
               else property_boundary.centroid
  let goal := if property_boundary.contains goal then goal
              else property_boundary.centroid
  let ctx : AStarCtx := ⟨rg, sqrtF, property_boundary, exclusion_zones, dem,
    bounds, resolution, grid_size, goal⟩
  aStarLoop ctx 10000 0
    { open_set := [(((0 : ℚ) : WithTop ℚ), start)],
      came_from := [],
      g_score := [(start, ((0 : ℚ) : WithTop ℚ))],
      f_score := [(start, ((sqrtF ((start.1 - goal.1)^2 +
        (start.2 - goal.2)^2) : ℚ) : WithTop ℚ))],
      visited := [] }

/-- One asset passed to `generate_road_network`. -/
structure RoadAsset where
  id : Option String
  x : ℚ
  y : ℚ

/-- One entry of `road_segments`. -/
structure Segment where
  type : String
  path : List Pt
  asset_id : Option String
  width : ℚ
deriving DecidableEq

/-- One entry of `road_network` (built by the right-of-way loop). -/
structure Road where
  type : String
  centerline : List Pt
  right_of_way : List Pt
  width : ℚ
  length : ℚ

/-- The path-search loop of `generate_road_network` (road_generator.py
lines 252–282): run A* from the entry point to each asset and record a
segment per successful path.  `road_network = []` is initialised at line
253 and appended to only by the later right-of-way loop, so it is still
empty throughout this loop — its length decides the type/width test. -/
def generate_road_segments (rg : RGen) (sqrtF : ℚ → ℚ) (entry_point : Pt)
    (assets : List RoadAsset) (property_boundary : PolyGeom)
    (exclusion_zones : List PolyGeom) (dem : Option Raster)
    (bounds : Option Bounds) (resolution : ℚ) : List Segment :=
  let road_network : List Road := []
  assets.foldl (fun road_segments asset =>
    let asset_location : Pt := (asset.x, asset.y)
    match (a_star_pathfinding rg sqrtF entry_point asset_location
        property_boundary exclusion_zones dem bounds resolution).1 with
    | some path =>
        road_segments ++ [{
          type := if road_network.length = 0 then "access" else "secondary",
          path := path,
          asset_id := asset.id,
          width := if road_network.length = 0 then rg.min_width_access
                   else rg.min_width_secondary }]
    | none => road_segments) []

/-- Embedding of `RoadGenerator._optimize_road_network` (lines 373–385): drop segments
whose exact point sequence was already seen. -/
def _optimize_road_network (segments : List Segment) : List Segment :=
  (segments.foldl (fun acc segment =>
    if segment.path ∈ acc.1 then acc
    else (acc.1 ++ [segment.path], acc.2 ++ [segment])) ([], [])).2

end RoadGenerator

/-!
# Theorems

First the helper lemmas, then for each claim its theorem (and, where the
theorem carries hypotheses, a closed witness instantiating it).
-/

section Helpers

lemma pyInt_nonneg {q : ℚ} (h : 0 ≤ q) : 0 ≤ pyInt q := by
  unfold pyInt
  have hnum : 0 ≤ q.num := Rat.num_nonneg.mpr h
  have hden : (0 : ℤ) < q.den := Int.ofNat_pos.mpr q.pos
  exact Int.tdiv_nonneg hnum (le_of_lt hden)

/-- Evaluation of the suitability score on a valid in-bounds grid cell,
with the two value-level branches left symbolic. -/
lemma score_eval_in (point : Pt) (slope aspect dem : Raster)
    (bounds : Bounds) (resolution : ℚ)
    (hB : bounds.minx ≤ point.1 ∧ point.1 ≤ bounds.maxx ∧
          bounds.miny ≤ point.2 ∧ point.2 ≤ bounds.maxy)
    (hIdx : ¬ (pyInt ((point.2 - bounds.miny) / resolution) < 0 ∨
               (slope.rows : ℤ) ≤ pyInt ((point.2 - bounds.miny) / resolution) ∨
               pyInt ((point.1 - bounds.minx) / resolution) < 0 ∨
               (slope.cols : ℤ) ≤ pyInt ((point.1 - bounds.minx) / resolution))) :
    TerrainAnalyzer.get_terrain_suitability_score point slope aspect dem bounds resolution =
      (4/5) * (if 15 < slope.val (pyInt ((point.2 - bounds.miny) / resolution)).toNat
                               (pyInt ((point.1 - bounds.minx) / resolution)).toNat
                 then 0
                 else 1 - slope.val (pyInt ((point.2 - bounds.miny) / resolution)).toNat
                               (pyInt ((point.1 - bounds.minx) / resolution)).toNat / 15)
    + (1/5) * (1 - (if 180 < |aspect.val (pyInt ((point.2 - bounds.miny) / resolution)).toNat
                               (pyInt ((point.1 - bounds.minx) / resolution)).toNat - 180|
                      then 360 - |aspect.val (pyInt ((point.2 - bounds.miny) / resolution)).toNat
                               (pyInt ((point.1 - bounds.minx) / resolution)).toNat - 180|
                      else |aspect.val (pyInt ((point.2 - bounds.miny) / resolution)).toNat
                               (pyInt ((point.1 - bounds.minx) / resolution)).toNat - 180|) / 180) := by
  unfold TerrainAnalyzer.get_terrain_suitability_score
  rw [if_neg (by simp only [not_not]; exact ⟨hB.1, hB.2.1, hB.2.2.1, hB.2.2.2⟩)]
  rw [if_neg hIdx]

/-- Evaluation of the suitability score when the grid indices fall outside
the raster shape. -/
lemma score_eval_badidx (point : Pt) (slope aspect dem : Raster)
    (bounds : Bounds) (resolution : ℚ)
    (hB : bounds.minx ≤ point.1 ∧ point.1 ≤ bounds.maxx ∧
          bounds.miny ≤ point.2 ∧ point.2 ≤ bounds.maxy)
    (hIdx : pyInt ((point.2 - bounds.miny) / resolution) < 0 ∨
            (slope.rows : ℤ) ≤ pyInt ((point.2 - bounds.miny) / resolution) ∨
            pyInt ((point.1 - bounds.minx) / resolution) < 0 ∨
            (slope.cols : ℤ) ≤ pyInt ((point.1 - bounds.minx) / resolution)) :
    TerrainAnalyzer.get_terrain_suitability_score point slope aspect dem bounds resolution = 0 := by
  unfold TerrainAnalyzer.get_terrain_suitability_score
  rw [if_neg (by simp only [not_not]; exact ⟨hB.1, hB.2.1, hB.2.2.1, hB.2.2.2⟩)]
  rw [if_pos hIdx]

/-- Evaluation of the suitability score when the point falls outside the
raster bounds. -/
lemma score_eval_outside (point : Pt) (slope aspect dem : Raster)
    (bounds : Bounds) (resolution : ℚ)
    (hB : ¬ (bounds.minx ≤ point.1 ∧ point.1 ≤ bounds.maxx ∧
             bounds.miny ≤ point.2 ∧ point.2 ≤ bounds.maxy)) :
    TerrainAnalyzer.get_terrain_suitability_score point slope aspect dem bounds resolution = 0 := by
  unfold TerrainAnalyzer.get_terrain_suitability_score
  rw [if_pos hB]

end Helpers

/-- C3: For every point and every slope/aspect raster with non-negative
slope values and aspect values in `[0, 360]` (and a positive resolution),
`get_terrain_suitability_score` returns a value in `[0, 1]`; a point outside
the raster bounds scores exactly `0`; when the point maps to a valid grid
cell whose slope exceeds 15 degrees the score is at most `0.2`; and on a
valid grid cell the score equals
`0.8·slope_score + 0.2·aspect_score` with `slope_score = 1 − slope/15` for
`slope ≤ 15` (else `0`) and
`aspect_score = 1 − (wrapped |aspect − 180|)/180`. -/
theorem C3_suitability_score_spec (point : Pt) (slope aspect dem : Raster)
    (bounds : Bounds) (resolution : ℚ)
    (hres : 0 < resolution)
    (hslope : ∀ i j, 0 ≤ slope.val i j)
    (haspect : ∀ i j, 0 ≤ aspect.val i j ∧ aspect.val i j ≤ 360) :
    let s := TerrainAnalyzer.get_terrain_suitability_score point slope aspect dem bounds resolution
    let inB := bounds.minx ≤ point.1 ∧ point.1 ≤ bounds.maxx ∧
               bounds.miny ≤ point.2 ∧ point.2 ≤ bounds.maxy
    let i : ℤ := pyInt ((point.2 - bounds.miny) / resolution)
    let j : ℤ := pyInt ((point.1 - bounds.minx) / resolution)
    let idxOk := 0 ≤ i ∧ i < (slope.rows : ℤ) ∧ 0 ≤ j ∧ j < (slope.cols : ℤ)
    (0 ≤ s ∧ s ≤ 1) ∧
    (¬ inB → s = 0) ∧
    (inB → idxOk → 15 < slope.val i.toNat j.toNat → s ≤ 1/5) ∧
    (inB → idxOk →
      s = (4/5) * (if slope.val i.toNat j.toNat ≤ 15
                     then 1 - slope.val i.toNat j.toNat / 15 else 0)
        + (1/5) * (1 - (if 180 < |aspect.val i.toNat j.toNat - 180|
                          then 360 - |aspect.val i.toNat j.toNat - 180|
                          else |aspect.val i.toNat j.toNat - 180|) / 180)) := by
  intro s inB i j idxOk
  by_cases hB : inB
  · -- point inside the bounding box
    by_cases hIdx : 0 ≤ i ∧ i < (slope.rows : ℤ) ∧ 0 ≤ j ∧ j < (slope.cols : ℤ)
    · -- valid grid cell
      obtain ⟨hi0, hiR, hj0, hjC⟩ := hIdx
      have hsv := hslope i.toNat j.toNat
      obtain ⟨ha0, ha360⟩ := haspect i.toNat j.toNat
      have hd : |aspect.val i.toNat j.toNat - 180| ≤ 180 := by
        rw [abs_le]; constructor <;> linarith
      have hseval : s =
          (4/5) * (if 15 < slope.val i.toNat j.toNat then 0
                     else 1 - slope.val i.toNat j.toNat / 15)
        + (1/5) * (1 - (if 180 < |aspect.val i.toNat j.toNat - 180|
                          then 360 - |aspect.val i.toNat j.toNat - 180|
                          else |aspect.val i.toNat j.toNat - 180|) / 180) :=
        score_eval_in point slope aspect dem bounds resolution hB
          (by push_neg; exact ⟨hi0, hiR, hj0, hjC⟩)
      rw [if_neg (not_lt.mpr hd)] at hseval
      constructor
      · -- score in [0,1]
        rw [hseval]
        have hds : 0 ≤ |aspect.val i.toNat j.toNat - 180| := abs_nonneg _
        by_cases h15 : 15 < slope.val i.toNat j.toNat
        · rw [if_pos h15]; constructor <;> nlinarith
        · rw [if_neg h15]
          have : slope.val i.toNat j.toNat ≤ 15 := not_lt.mp h15
          constructor <;> nlinarith
      refine ⟨fun h => absurd hB h, ?_, ?_⟩
      · -- steep slope ⇒ score ≤ 0.2
        intro _ _ h15
        rw [hseval, if_pos h15]
        have hds : 0 ≤ |aspect.val i.toNat j.toNat - 180| := abs_nonneg _
        nlinarith
      · -- exact formula
        intro _ _
        rw [hseval, if_neg (not_lt.mpr hd)]
        by_cases h15 : 15 < slope.val i.toNat j.toNat
        · rw [if_pos h15, if_neg (not_le.mpr h15)]
        · rw [if_neg h15, if_pos (not_lt.mp h15)]
    · -- indices out of range: the function returns 0
      have hseval : s = 0 :=
        score_eval_badidx point slope aspect dem bounds resolution hB
          (by push_neg at hIdx; omega)
      exact ⟨by rw [hseval]; norm_num,
             fun h => absurd hB h,
             fun _ hIdx' => absurd hIdx' hIdx,
             fun _ hIdx' => absurd hIdx' hIdx⟩
  · -- point outside the bounding box: the function returns 0
    have hseval : s = 0 :=
      score_eval_outside point slope aspect dem bounds resolution
        (fun hc => hB ⟨hc.1, hc.2.1, hc.2.2.1, hc.2.2.2⟩)
    exact ⟨by rw [hseval]; norm_num,
           fun _ => hseval,
           fun hB' => absurd hB' hB,
           fun hB' => absurd hB' hB⟩

/-- Witness for C3: a concrete 1×1 raster with slope 3° and aspect 180°
at a point inside bounds; the theorem instantiates and its range bound is
projected out. -/
theorem C3_suitability_score_witness :
    0 ≤ TerrainAnalyzer.get_terrain_suitability_score ((1:ℚ)/2, (1:ℚ)/2)
          ⟨1, 1, fun _ _ => 3⟩ ⟨1, 1, fun _ _ => 180⟩ ⟨1, 1, fun _ _ => 100⟩
          ⟨0, 0, 10, 10⟩ 1 ∧
    TerrainAnalyzer.get_terrain_suitability_score ((1:ℚ)/2, (1:ℚ)/2)
          ⟨1, 1, fun _ _ => 3⟩ ⟨1, 1, fun _ _ => 180⟩ ⟨1, 1, fun _ _ => 100⟩
          ⟨0, 0, 10, 10⟩ 1 ≤ 1 :=
  (C3_suitability_score_spec ((1:ℚ)/2, (1:ℚ)/2)
      ⟨1, 1, fun _ _ => 3⟩ ⟨1, 1, fun _ _ => 180⟩ ⟨1, 1, fun _ _ => 100⟩
      ⟨0, 0, 10, 10⟩ 1 (by norm_num)
      (fun _ _ => by norm_num)
      (fun _ _ => by norm_num)).1

/-- C10: A cached `None` is indistinguishable from a miss at the public
cache interface: `get_cached` returns `None` for a missing key, for an
expired entry, and for an unexpired entry whose stored value is itself
`None`; consequently the memoizing `cached` decorator re-executes the
wrapped function (and re-stores the result) whenever the lookup yields
`None` — in particular on every call after one whose underlying result was
`None`. -/
theorem C10_cached_none_miss_equivalence {V : Type}
    (cache : CacheUtils.CacheMap V) (key : String) (now ttl : ℚ)
    (f : Unit → Option V) :
    (cache key = none → (CacheUtils.get_cached cache key now).1 = none) ∧
    (∀ e, cache key = some e → e.expires_at ≤ now →
      (CacheUtils.get_cached cache key now).1 = none) ∧
    (∀ e, cache key = some e → e.value = none →
      (CacheUtils.get_cached cache key now).1 = none) ∧
    ((CacheUtils.get_cached cache key now).1 = none →
      (CacheUtils.cachedCall f cache key ttl now).2.2 = true ∧
      (CacheUtils.cachedCall f cache key ttl now).1 = f () ∧
      (CacheUtils.cachedCall f cache key ttl now).2.1 key =
        some ⟨f (), now + ttl, now⟩) ∧
    ((CacheUtils.get_cached cache key now).1 = none → f () = none →
      ∀ (g : Unit → Option V) (ttl2 now2 : ℚ),
        (CacheUtils.cachedCall g
          ((CacheUtils.cachedCall f cache key ttl now).2.1)
          key ttl2 now2).2.2 = true) := by
  refine ⟨?_, ?_, ?_, ?_, ?_⟩
  · intro h
    simp [CacheUtils.get_cached, h]
  · intro e he hexp
    simp [CacheUtils.get_cached, he, if_neg (not_lt.mpr hexp)]
  · intro e he hv
    unfold CacheUtils.get_cached
    rw [he]
    by_cases hexp : now < e.expires_at
    · simp [hexp, hv]
    · simp [hexp]
  · intro hget
    refine ⟨?_, ?_, ?_⟩ <;>
      simp [CacheUtils.cachedCall, hget, CacheUtils.set_cached]
  · intro hget hf g ttl2 now2
    have hstore : (CacheUtils.cachedCall f cache key ttl now).2.1 key =
        some ⟨none, now + ttl, now⟩ := by
      simp [CacheUtils.cachedCall, hget, CacheUtils.set_cached, hf]
    have hget2 : (CacheUtils.get_cached
        ((CacheUtils.cachedCall f cache key ttl now).2.1) key now2).1 = none := by
      unfold CacheUtils.get_cached
      rw [hstore]
      by_cases hexp : now2 < now + ttl
      · simp [hexp]
      · simp [hexp]
    set c2 := (CacheUtils.cachedCall f cache key ttl now).2.1 with hc2
    simp [CacheUtils.cachedCall, hget2]

/-- Witness for C10: the empty cache misses, and the decorator then
executes the wrapped function. -/
theorem C10_cached_none_witness :
    (CacheUtils.get_cached (V := ℕ) (fun _ => none) "k" 0).1 = none ∧
    (CacheUtils.cachedCall (V := ℕ) (fun _ => none) (fun _ => none)
      "k" 10 0).2.2 = true := by
  have h := C10_cached_none_miss_equivalence (V := ℕ) (fun _ => none)
    "k" 0 10 (fun _ => none)
  exact ⟨h.1 rfl, (h.2.2.2.1 (h.1 rfl)).1⟩

section C6Helpers

lemma cache_result_length_le {R : Type} (d : List (String × R)) (k : String)
    (v : R) (h : d.length ≤ 10) :
    (OptimizeHandler.cache_result d k v).length ≤ 10 := by
  unfold OptimizeHandler.cache_result OptimizeHandler.dictInsert
  by_cases hk : (d.lookup k).isSome = true
  · rw [if_pos hk]
    rw [if_neg (show ¬ (10 <
        (d.map (fun p => if p.1 = k then (k, v) else p)).length) by
      simp only [List.length_map]; omega)]
    simpa using h
  · rw [if_neg hk]
    by_cases h10 : 10 < (d ++ [(k, v)]).length
    · rw [if_pos h10]
      simp only [List.length_drop, List.length_append] at h10 ⊢
      simp only [List.length_cons, List.length_nil] at h10 ⊢
      omega
    · rw [if_neg h10]
      simp only [List.length_append, List.length_cons, List.length_nil] at h10 ⊢
      omega

lemma foldl_cache_result_le {R : Type} (ops : List (String × R)) :
    ∀ d : List (String × R), d.length ≤ 10 →
    (ops.foldl (fun d kv => OptimizeHandler.cache_result d kv.1 kv.2)
      d).length ≤ 10 := by
  induction ops with
  | nil => intro d h; simpa using h
  | cons kv rest ih =>
      intro d h
      exact ih _ (cache_result_length_le d kv.1 kv.2 h)

end C6Helpers

/-- C6: The optimize handler's completed-result cache never exceeds 10
entries after an insert completes: a single insert preserves the bound,
any sequence of inserts from the empty cache stays within it, and a fresh
insert into a full cache evicts exactly the oldest entry (FIFO).  The
expiring cache — the only other cache in the system — performs no
size-based eviction: `set_cached` and `get_cached` leave every other key
untouched. -/
theorem C6_result_cache_bound {R : Type} (results : List (String × R))
    (request_hash : String) (result : R)
    (hlen : results.length ≤ 10) :
    (OptimizeHandler.cache_result results request_hash result).length ≤ 10 ∧
    (∀ ops : List (String × R),
      (ops.foldl (fun d kv => OptimizeHandler.cache_result d kv.1 kv.2)
        []).length ≤ 10) ∧
    (results.lookup request_hash = none → results.length = 10 →
      OptimizeHandler.cache_result results request_hash result =
        results.drop 1 ++ [(request_hash, result)]) ∧
    (∀ (V : Type) (cache : CacheUtils.CacheMap V) (key : String)
       (v : Option V) (ttl now : ℚ) (k : String), k ≠ key →
      CacheUtils.set_cached cache key v ttl now k = cache k) ∧
    (∀ (V : Type) (cache : CacheUtils.CacheMap V) (key : String) (now : ℚ)
       (k : String), k ≠ key →
      (CacheUtils.get_cached cache key now).2 k = cache k) := by
  refine ⟨cache_result_length_le results request_hash result hlen, ?_, ?_, ?_, ?_⟩
  · intro ops
    exact foldl_cache_result_le ops [] (by simp)
  · intro hfresh hfull
    unfold OptimizeHandler.cache_result OptimizeHandler.dictInsert
    rw [if_neg (show ¬ (results.lookup request_hash).isSome = true by
      simp [hfresh])]
    rw [if_pos (show 10 < (results ++ [(request_hash, result)]).length by
      simp [hfull])]
    exact List.drop_append_of_le_length (by omega)
  · intro V cache key v ttl now k hk
    simp [CacheUtils.set_cached, hk]
  · intro V cache key now k hk
    unfold CacheUtils.get_cached
    cases hc : cache key with
    | none => rfl
    | some e =>
        by_cases hexp : now < e.expires_at
        · simp [hexp]
        · simp [hexp, hk]

/-- Witness for C6: inserting into a one-entry cache keeps it within the
bound. -/
theorem C6_result_cache_witness :
    (OptimizeHandler.cache_result ([("a", 1)] : List (String × ℕ))
      "b" 2).length ≤ 10 :=
  (C6_result_cache_bound [("a", 1)] "b" 2 (by norm_num)).1

section C7Helpers

/-- Every cell of `cutMapOf` is zero when the proposed grid agrees with
the existing DEM at every in-shape cell. -/
lemma cutMap_all_zero (c : CutFillCalculator.CFCalc) (dem proposed : Grid)
    (bounds : Bounds) (pb : Option CutFillCalculator.MaskPoly)
    (hagree : ∀ i, i < dem.length → ∀ j, j < (dem.getD 0 []).length →
      CutFillCalculator.gridGet proposed i j = CutFillCalculator.gridGet dem i j) :
    ((CutFillCalculator.cutMapOf c dem proposed bounds pb).map List.sum).sum = 0 := by
  apply List.sum_eq_zero
  intro x hx
  obtain ⟨row, hrow, rfl⟩ := List.mem_map.mp hx
  obtain ⟨i, hi, rfl⟩ := List.mem_map.mp hrow
  apply List.sum_eq_zero
  intro y hy
  obtain ⟨j, hj, rfl⟩ := List.mem_map.mp hy
  rw [if_neg]
  rintro ⟨-, hlt⟩
  rw [hagree i (List.mem_range.mp hi) j (List.mem_range.mp hj)] at hlt
  exact lt_irrefl _ hlt

/-- Same for `fillMapOf`. -/
lemma fillMap_all_zero (c : CutFillCalculator.CFCalc) (dem proposed : Grid)
    (bounds : Bounds) (pb : Option CutFillCalculator.MaskPoly)
    (hagree : ∀ i, i < dem.length → ∀ j, j < (dem.getD 0 []).length →
      CutFillCalculator.gridGet proposed i j = CutFillCalculator.gridGet dem i j) :
    ((CutFillCalculator.fillMapOf c dem proposed bounds pb).map List.sum).sum = 0 := by
  apply List.sum_eq_zero
  intro x hx
  obtain ⟨row, hrow, rfl⟩ := List.mem_map.mp hx
  obtain ⟨i, hi, rfl⟩ := List.mem_map.mp hrow
  apply List.sum_eq_zero
  intro y hy
  obtain ⟨j, hj, rfl⟩ := List.mem_map.mp hy
  rw [if_neg]
  rintro ⟨-, hlt⟩
  rw [hagree i (List.mem_range.mp hi) j (List.mem_range.mp hj)] at hlt
  exact lt_irrefl _ hlt

end C7Helpers

/-- C7: When the synthesized proposed grade agrees with the existing
DEM at every cell (as it does when `proposed_grades` supplies the existing
DEM as `baseline_dem` with no default elevation, assets or roads),
`calculate_volumes` reports cut, fill and net volumes that are all exactly
`0`, in cubic feet and in cubic yards. -/
theorem C7_cutfill_identity_zero (c : CutFillCalculator.CFCalc) (dem : Grid)
    (grades : CutFillCalculator.ProposedGrades) (bounds : Bounds)
    (pb : Option CutFillCalculator.MaskPoly)
    (hagree : ∀ i, i < dem.length → ∀ j, j < (dem.getD 0 []).length →
      CutFillCalculator.gridGet
        (CutFillCalculator._create_proposed_dem c grades
          (dem.length, (dem.getD 0 []).length) bounds) i j =
      CutFillCalculator.gridGet dem i j) :
    let r := CutFillCalculator.calculate_volumes c dem grades bounds pb
    r.cut_volume_ft3 = 0 ∧ r.fill_volume_ft3 = 0 ∧ r.net_volume_ft3 = 0 ∧
    r.cut_volume_yd3 = 0 ∧ r.fill_volume_yd3 = 0 ∧ r.net_volume_yd3 = 0 := by
  intro r
  have hcut : r.cut_volume_ft3 =
      ((CutFillCalculator.cutMapOf c dem
        (CutFillCalculator._create_proposed_dem c grades
          (dem.length, (dem.getD 0 []).length) bounds) bounds pb).map
        List.sum).sum * (c.grid_resolution * c.grid_resolution) := rfl
  have hfill : r.fill_volume_ft3 =
      ((CutFillCalculator.fillMapOf c dem
        (CutFillCalculator._create_proposed_dem c grades
          (dem.length, (dem.getD 0 []).length) bounds) bounds pb).map
        List.sum).sum * (c.grid_resolution * c.grid_resolution) := rfl
  have hnet : r.net_volume_ft3 = r.cut_volume_ft3 - r.fill_volume_ft3 := rfl
  have hcy : r.cut_volume_yd3 = r.cut_volume_ft3 / 27 := rfl
  have hfy : r.fill_volume_yd3 = r.fill_volume_ft3 / 27 := rfl
  have hny : r.net_volume_yd3 = r.net_volume_ft3 / 27 := rfl
  have hc0 : r.cut_volume_ft3 = 0 := by
    rw [hcut, cutMap_all_zero c dem _ bounds pb hagree, zero_mul]
  have hf0 : r.fill_volume_ft3 = 0 := by
    rw [hfill, fillMap_all_zero c dem _ bounds pb hagree, zero_mul]
  refine ⟨hc0, hf0, ?_, ?_, ?_, ?_⟩
  · rw [hnet, hc0, hf0]; ring
  · rw [hcy, hc0]; norm_num
  · rw [hfy, hf0]; norm_num
  · rw [hny, hnet, hc0, hf0]; norm_num

/-- Witness for C7: a concrete 2×2 DEM supplied to `proposed_grades` as
its own baseline (no default elevation, assets or roads) yields zero cut
volume; the agreement hypothesis evaluates by `decide`. -/
theorem C7_cutfill_identity_witness :
    (CutFillCalculator.calculate_volumes ⟨10⟩ [[1, 2], [3, 4]]
      ⟨none, some [[1, 2], [3, 4]], [], []⟩ ⟨0, 0, 1, 1⟩
      none).cut_volume_ft3 = 0 ∧
    (CutFillCalculator.calculate_volumes ⟨10⟩ [[1, 2], [3, 4]]
      ⟨none, some [[1, 2], [3, 4]], [], []⟩ ⟨0, 0, 1, 1⟩
      none).net_volume_yd3 = 0 := by
  have h := C7_cutfill_identity_zero ⟨10⟩ [[1, 2], [3, 4]]
    ⟨none, some [[1, 2], [3, 4]], [], []⟩ ⟨0, 0, 1, 1⟩ none
    (by decide)
  exact ⟨h.1, h.2.2.2.2.2⟩

section C9Helpers

/-- The final label of a visualization cell over non-negative cut/fill
depths is never `0`. -/
lemma vizCell_ne_zero {c f : ℚ} (hc : 0 ≤ c) (hf : 0 ≤ f) :
    CutFillCalculator.vizCell c f ≠ 0 := by
  unfold CutFillCalculator.vizCell
  by_cases hb : |c - f| < 1/10
  · rw [if_pos hb]; norm_num
  · rw [if_neg hb]
    by_cases hfp : 0 < f
    · simp [hfp]
    · have hf0 : f = 0 := le_antisymm (not_lt.mp hfp) hf
      by_cases hcp : 0 < c
      · simp [hfp, hcp]
      · exact absurd (by rw [le_antisymm (not_lt.mp hcp) hc, hf0]; norm_num)
          hb

/-- A cell with zero cut and zero fill is labelled `3` (balanced). -/
lemma vizCell_zero_zero : CutFillCalculator.vizCell 0 0 = 3 := by
  unfold CutFillCalculator.vizCell
  norm_num

/-- Pointwise property of a `zipWith`. -/
lemma zipWith_forall_mem {α β γ : Type} {f : α → β → γ} {P : γ → Prop} :
    ∀ (a : List α) (b : List β), (∀ x ∈ a, ∀ y ∈ b, P (f x y)) →
    ∀ z ∈ List.zipWith f a b, P z := by
  intro a
  induction a with
  | nil => intro b _ z hz; simp at hz
  | cons x xs ih =>
      intro b h z hz
      cases b with
      | nil => simp at hz
      | cons y ys =>
          rw [List.zipWith_cons_cons] at hz
          rcases List.mem_cons.mp hz with hz | hz
          · rw [hz]
            exact h x (by simp) y (by simp)
          · exact ih ys (fun x' hx' y' hy' =>
              h x' (by simp [hx']) y' (by simp [hy'])) z hz

end C9Helpers

/-- C9 counterexample: as stated over every input raster pair, the
claim is false: a cell with a negative cut depth and zero fill depth is
classified neither cut, fill nor balanced, so the label `0` ("No change")
does appear. -/
theorem C9_no_change_counterexample :
    ¬ (∀ (cut_map fill_map : Grid) (bounds : Bounds),
        (0 : ℚ) ∉ (CutFillCalculator.generate_visualization_map cut_map
          fill_map bounds).visualization.flatten) := by
  intro h
  apply h [[-1]] [[0]] ⟨0, 0, 1, 1⟩
  have hcell : CutFillCalculator.vizCell (-1) 0 = 0 := by
    unfold CutFillCalculator.vizCell
    norm_num
  simp [CutFillCalculator.generate_visualization_map, hcell]

/-- C9 amended: for raster pairs with non-negative entries — the
only ones `calculate_volumes` produces — every cell with zero cut and zero
fill satisfies the balanced condition and is labelled `3`, and the label
`0` ("No change") never appears in the returned visualization raster. -/
theorem C9_no_change_never_appears (cut_map fill_map : Grid) (bounds : Bounds)
    (hc : ∀ row ∈ cut_map, ∀ v ∈ row, 0 ≤ v)
    (hf : ∀ row ∈ fill_map, ∀ v ∈ row, 0 ≤ v) :
    let viz := (CutFillCalculator.generate_visualization_map cut_map fill_map
      bounds).visualization
    (∀ c f : ℚ, c = 0 → f = 0 → CutFillCalculator.vizCell c f = 3) ∧
    (0 : ℚ) ∉ viz.flatten := by
  intro viz
  constructor
  · intro c f hc0 hf0
    rw [hc0, hf0]
    exact vizCell_zero_zero
  · intro hmem
    obtain ⟨row, hrow, hv⟩ := List.mem_flatten.mp hmem
    have hrow' := zipWith_forall_mem
      (f := fun rc rf => List.zipWith CutFillCalculator.vizCell rc rf)
      (P := fun r => ∀ z ∈ r, z ≠ 0) cut_map fill_map
      (fun rc hrc rf hrf => zipWith_forall_mem rc rf
        (fun x hx y hy => vizCell_ne_zero (hc rc hrc x hx) (hf rf hrf y hy)))
      row hrow
    exact hrow' 0 hv rfl

/-- Witness for C9 (amended): concrete non-negative rasters; the label `0`
does not occur. -/
theorem C9_no_change_witness :
    (0 : ℚ) ∉ (CutFillCalculator.generate_visualization_map
      [[0, 1]] [[0, 0]] ⟨0, 0, 1, 1⟩).visualization.flatten :=
  (C9_no_change_never_appears [[0, 1]] [[0, 0]] ⟨0, 0, 1, 1⟩
    (by intro row hrow v hv
        simp at hrow
        subst hrow
        simp at hv
        rcases hv with h | h <;> rw [h] <;> norm_num)
    (by intro row hrow v hv
        simp at hrow
        subst hrow
        simp at hv
        rw [hv])).2

section C5Helpers

lemma admittedTimes_cons (t : ℚ) (b : Bool) (l : List (ℚ × Bool)) :
    RateLimit.admittedTimes ((t, b) :: l) =
      cond b (t :: RateLimit.admittedTimes l) (RateLimit.admittedTimes l) := by
  cases b <;> simp [RateLimit.admittedTimes, List.filter_cons]

/-- Admitted call times are call times. -/
lemma admittedTimes_sub (cfg : RateLimit.LimitConfig) :
    ∀ (ts state : List ℚ), ∀ x ∈ RateLimit.admittedTimes
      (RateLimit.runRateLimit cfg ts state), x ∈ ts := by
  intro ts
  induction ts with
  | nil =>
      intro state x hx
      simp [RateLimit.runRateLimit, RateLimit.admittedTimes] at hx
  | cons t rest ih =>
      intro state x hx
      rw [show RateLimit.runRateLimit cfg (t :: rest) state =
            (t, (RateLimit.check_rate_limit_step cfg state t).1) ::
            RateLimit.runRateLimit cfg rest
              (RateLimit.check_rate_limit_step cfg state t).2 from rfl,
          admittedTimes_cons] at hx
      cases hb : (RateLimit.check_rate_limit_step cfg state t).1 with
      | false =>
          rw [hb] at hx
          exact List.mem_cons_of_mem t (ih _ x hx)
      | true =>
          rw [hb] at hx
          rcases List.mem_cons.mp hx with h | h
          · exact h ▸ List.mem_cons_self t rest
          · exact List.mem_cons_of_mem t (ih _ x h)

lemma countWindow_le_length (l : List ℚ) (w win : ℚ) :
    RateLimit.countWindow l w win ≤ l.length :=
  List.length_filter_le _ _

lemma countWindow_cons (t : ℚ) (l : List ℚ) (w win : ℚ) :
    RateLimit.countWindow (t :: l) w win =
      (if w < t ∧ t ≤ w + win then 1 else 0) + RateLimit.countWindow l w win := by
  unfold RateLimit.countWindow
  rw [List.filter_cons]
  by_cases h : w < t ∧ t ≤ w + win
  · simp [h, Nat.add_comm]
  · simp [h]

lemma countWindow_append_one (l : List ℚ) (t w win : ℚ) :
    RateLimit.countWindow (l ++ [t]) w win =
      RateLimit.countWindow l w win +
        (if w < t ∧ t ≤ w + win then 1 else 0) := by
  unfold RateLimit.countWindow
  rw [List.filter_append, List.length_append]
  congr 1
  rw [List.filter_cons]
  by_cases h : w < t ∧ t ≤ w + win
  · simp [h]
  · simp [h]

/-- Pruning at a time still inside (or before the end of) the window keeps
every window timestamp: the in-window count is unchanged. -/
lemma countWindow_prune_eq (state : List ℚ) (now w win : ℚ)
    (hnow : now ≤ w + win) :
    RateLimit.countWindow (state.filter (fun s => decide (now - win < s)))
      w win = RateLimit.countWindow state w win := by
  unfold RateLimit.countWindow
  rw [List.filter_filter]
  apply congrArg List.length
  apply List.filter_congr
  intro x _
  by_cases h : w < x ∧ x ≤ w + win
  · have hkeep : now - win < x := by
      obtain ⟨h1, _⟩ := h
      linarith
    simp [h, hkeep]
  · simp [h]

lemma countWindow_eq_zero (l : List ℚ) (w win : ℚ)
    (h : ∀ x ∈ l, w + win < x) : RateLimit.countWindow l w win = 0 := by
  unfold RateLimit.countWindow
  have hf : l.filter (fun t => decide (w < t ∧ t ≤ w + win)) = [] :=
    List.filter_eq_nil_iff.mpr (fun a ha => by
      simp only [decide_eq_true_eq]
      rintro ⟨-, h2⟩
      exact absurd (h a ha) (not_lt.mpr h2))
  rw [hf]
  rfl

/-- Calls entirely past the window admit nothing into it. -/
lemma run_countWindow_late (cfg : RateLimit.LimitConfig) (w : ℚ)
    (ts state : List ℚ) (h : ∀ t ∈ ts, w + cfg.window_seconds < t) :
    RateLimit.countWindow (RateLimit.admittedTimes
      (RateLimit.runRateLimit cfg ts state)) w cfg.window_seconds = 0 :=
  countWindow_eq_zero _ _ _
    (fun x hx => h x (admittedTimes_sub cfg ts state x hx))

/-- Main invariant: starting from any state whose in-window count is within
the limit, a monotone call sequence keeps the total of state plus admitted
in-window timestamps within the limit. -/
lemma run_window_bound (cfg : RateLimit.LimitConfig) (w : ℚ) :
    ∀ (ts state : List ℚ), List.Sorted (· ≤ ·) ts →
    RateLimit.countWindow state w cfg.window_seconds ≤ cfg.max_requests →
    RateLimit.countWindow state w cfg.window_seconds +
      RateLimit.countWindow (RateLimit.admittedTimes
        (RateLimit.runRateLimit cfg ts state)) w cfg.window_seconds ≤
      cfg.max_requests := by
  intro ts
  induction ts with
  | nil =>
      intro state _ hstate
      simpa [RateLimit.runRateLimit, RateLimit.admittedTimes,
        RateLimit.countWindow] using hstate
  | cons t rest ih =>
      intro state hsort hstate
      have hsort' := hsort.of_cons
      have hrest := List.rel_of_sorted_cons hsort
      have hrun : RateLimit.runRateLimit cfg (t :: rest) state =
          (t, (RateLimit.check_rate_limit_step cfg state t).1) ::
          RateLimit.runRateLimit cfg rest
            (RateLimit.check_rate_limit_step cfg state t).2 := rfl
      by_cases hwin : t ≤ w + cfg.window_seconds
      · have hcw := countWindow_prune_eq state t w cfg.window_seconds hwin
        by_cases hrej : cfg.max_requests ≤
            (state.filter (fun s => decide (t - cfg.window_seconds < s))).length
        · -- rejected: state is pruned and nothing is admitted now
          have hstep : RateLimit.check_rate_limit_step cfg state t =
              (false, state.filter (fun s => decide (t - cfg.window_seconds < s))) := by
            unfold RateLimit.check_rate_limit_step
            rw [if_pos hrej]
          rw [hrun, hstep, admittedTimes_cons]
          simp only [cond_false]
          have h := ih (state.filter (fun s => decide (t - cfg.window_seconds < s)))
            hsort' (by rw [hcw]; exact hstate)
          rw [hcw] at h
          exact h
        · -- admitted: the new timestamp is recorded
          have hstep : RateLimit.check_rate_limit_step cfg state t =
              (true, state.filter (fun s => decide (t - cfg.window_seconds < s))
                ++ [t]) := by
            unfold RateLimit.check_rate_limit_step
            rw [if_neg hrej]
          rw [hrun, hstep, admittedTimes_cons]
          simp only [cond_true]
          rw [countWindow_cons]
          have hprl : RateLimit.countWindow
              (state.filter (fun s => decide (t - cfg.window_seconds < s)))
              w cfg.window_seconds ≤
              (state.filter (fun s => decide (t - cfg.window_seconds < s))).length :=
            countWindow_le_length _ _ _
          have hlen : (state.filter
              (fun s => decide (t - cfg.window_seconds < s))).length <
              cfg.max_requests := not_le.mp hrej
          have hnew : RateLimit.countWindow
              (state.filter (fun s => decide (t - cfg.window_seconds < s)) ++ [t])
              w cfg.window_seconds =
              RateLimit.countWindow state w cfg.window_seconds +
              (if w < t ∧ t ≤ w + cfg.window_seconds then 1 else 0) := by
            rw [countWindow_append_one, hcw]
          have hnewle : RateLimit.countWindow
              (state.filter (fun s => decide (t - cfg.window_seconds < s)) ++ [t])
              w cfg.window_seconds ≤ cfg.max_requests := by
            rw [countWindow_append_one]
            by_cases hin : w < t ∧ t ≤ w + cfg.window_seconds
            · rw [if_pos hin]; omega
            · rw [if_neg hin]; rw [hcw]; simpa using hstate
          have h := ih (state.filter (fun s => decide (t - cfg.window_seconds < s))
            ++ [t]) hsort' hnewle
          rw [hnew] at h
          by_cases hin : w < t ∧ t ≤ w + cfg.window_seconds
          · rw [if_pos hin] at h ⊢; omega
          · rw [if_neg hin] at h ⊢; omega
      · -- t is already past the window; so is every later call
        push_neg at hwin
        have hlate : ∀ x ∈ (t :: rest), w + cfg.window_seconds < x := by
          intro x hx
          rcases List.mem_cons.mp hx with rfl | hx
          · exact hwin
          · exact lt_of_lt_of_le hwin (hrest x hx)
        rw [run_countWindow_late cfg w (t :: rest) state hlate]
        simpa using hstate

lemma runCheck_eq_runRateLimit (path : String) (cfg : RateLimit.LimitConfig)
    (hpath : RateLimit.findLimitConfig path = some cfg) :
    ∀ ts state, RateLimit.runCheckRateLimit path ts state =
      RateLimit.runRateLimit cfg ts state := by
  intro ts
  induction ts with
  | nil => intro state; rfl
  | cons t rest ih =>
      intro state
      have hcheck : RateLimit.check_rate_limit path state t =
          RateLimit.check_rate_limit_step cfg state t := by
        unfold RateLimit.check_rate_limit
        rw [hpath]
      show (t, (RateLimit.check_rate_limit path state t).1) ::
          RateLimit.runCheckRateLimit path rest
            (RateLimit.check_rate_limit path state t).2 = _
      rw [hcheck, ih]
      rfl

/-- A call is rejected exactly when the pruned count already meets the
limit. -/
lemma step_reject_iff (cfg : RateLimit.LimitConfig) (state : List ℚ)
    (now : ℚ) :
    (RateLimit.check_rate_limit_step cfg state now).1 = false ↔
      cfg.max_requests ≤ (state.filter
        (fun s => decide (now - cfg.window_seconds < s))).length := by
  unfold RateLimit.check_rate_limit_step
  by_cases h : cfg.max_requests ≤ (state.filter
      (fun s => decide (now - cfg.window_seconds < s))).length
  · rw [if_pos h]; simpa using h
  · rw [if_neg h]; simpa using h

/-- Once every recorded timestamp is a full window old, the next call is
admitted again (for a positive request limit). -/
lemma step_admit_after_window (cfg : RateLimit.LimitConfig) (state : List ℚ)
    (now : ℚ) (hmax : 0 < cfg.max_requests)
    (h : ∀ s ∈ state, s + cfg.window_seconds ≤ now) :
    (RateLimit.check_rate_limit_step cfg state now).1 = true := by
  unfold RateLimit.check_rate_limit_step
  have hempty : state.filter (fun s => decide (now - cfg.window_seconds < s)) = [] :=
    List.filter_eq_nil_iff.mpr (fun a ha => by
      simp only [decide_eq_true_eq]
      intro hlt
      have := h a ha
      linarith)
  rw [if_neg (by rw [hempty]; simp only [List.length_nil]; omega)]

/-- C5: For every monotone sequence of `check_rate_limit` calls from
one client to a path matching the `'/upload'` rule (5 requests per
60-second window), no 60-second window `(w, w+60]` ever contains more than
5 admitted timestamps; a call is rejected exactly when the count of
recorded timestamps younger than 60 seconds already meets the limit; and
once every recorded timestamp is a full window old, the next call is
admitted again. -/
theorem C5_upload_rate_limit (path : String) (ts : List ℚ) (w : ℚ)
    (hpath : RateLimit.findLimitConfig path = some ⟨5, 60⟩)
    (hsort : List.Sorted (· ≤ ·) ts) :
    RateLimit.countWindow (RateLimit.admittedTimes
      (RateLimit.runCheckRateLimit path ts [])) w 60 ≤ 5 ∧
    (∀ (state : List ℚ) (now : ℚ),
      (RateLimit.check_rate_limit path state now).1 = false ↔
        5 ≤ (state.filter (fun s => decide (now - 60 < s))).length) ∧
    (∀ (state : List ℚ) (now : ℚ), (∀ s ∈ state, s + 60 ≤ now) →
      (RateLimit.check_rate_limit path state now).1 = true) := by
  have hstep : ∀ (state : List ℚ) (now : ℚ),
      RateLimit.check_rate_limit path state now =
      RateLimit.check_rate_limit_step ⟨5, 60⟩ state now := by
    intro state now
    unfold RateLimit.check_rate_limit
    rw [hpath]
  refine ⟨?_, ?_, ?_⟩
  · rw [runCheck_eq_runRateLimit path ⟨5, 60⟩ hpath ts []]
    have h := run_window_bound ⟨5, 60⟩ w ts [] hsort
      (by simp [RateLimit.countWindow])
    simpa [RateLimit.countWindow] using h
  · intro state now
    rw [hstep]
    exact step_reject_iff ⟨5, 60⟩ state now
  · intro state now h
    rw [hstep]
    exact step_admit_after_window ⟨5, 60⟩ state now (by norm_num) h

/-- Witness for C5: five rapid calls then one more inside the window
through the `/api/upload` path; the window bound holds. -/
theorem C5_upload_rate_limit_witness :
    RateLimit.countWindow (RateLimit.admittedTimes
      (RateLimit.runCheckRateLimit "/api/upload" [0, 1, 2, 3, 4, 5, 70] []))
      0 60 ≤ 5 :=
  (C5_upload_rate_limit "/api/upload" [0, 1, 2, 3, 4, 5, 70] 0
    (by decide) (by decide)).1

section C2Helpers

/-- The candidate-collection loop equals "filter, then stop at 10,000":
the early return truncates the accepted grid points at the cap. -/
lemma collectLoop_eq (accept : Pt → Bool) :
    ∀ (pts acc : List Pt), acc.length < 10000 →
    AssetPlacer.collectLoop accept pts acc =
      acc ++ (pts.filter accept).take (10000 - acc.length) := by
  intro pts
  induction pts with
  | nil =>
      intro acc _
      simp [AssetPlacer.collectLoop]
  | cons p rest ih =>
      intro acc hacc
      show (if accept p then
              (if 10000 ≤ (acc ++ [p]).length then acc ++ [p]
               else AssetPlacer.collectLoop accept rest (acc ++ [p]))
            else AssetPlacer.collectLoop accept rest acc) = _
      by_cases hp : accept p = true
      · rw [if_pos hp, List.filter_cons_of_pos hp]
        by_cases hstop : 10000 ≤ (acc ++ [p]).length
        · rw [if_pos hstop]
          have hlen : acc.length + 1 = 10000 := by
            simp only [List.length_append, List.length_cons,
              List.length_nil] at hstop
            omega
          have h1 : 10000 - acc.length = 1 := by omega
          rw [h1, List.take_succ_cons, List.take_zero]
        · rw [if_neg hstop]
          have hlt : (acc ++ [p]).length < 10000 := not_le.mp hstop
          rw [ih (acc ++ [p]) hlt]
          have h2 : 10000 - acc.length = (10000 - (acc ++ [p]).length) + 1 := by
            simp only [List.length_append, List.length_cons, List.length_nil]
            omega
          rw [h2, List.take_succ_cons, List.append_assoc]
          rfl
      · rw [if_neg hp, List.filter_cons_of_neg hp,
          ih acc hacc]

end C2Helpers

/-- C2: The candidate list returned by `generate_candidate_locations`
is exactly the grid-walk points passing the containment filter, truncated
the moment the 10,000th candidate is accepted; hence it never exceeds
10,000 entries, and every returned candidate lies inside the (possibly
fallback) buffered boundary and outside the computed buffered
exclusion-zone union.  The positivity hypothesis on the effective grid
step restricts the statement to the inputs on which the source's `while`
walk terminates. -/
theorem C2_candidate_containment_cap {R : Type} (G : AssetPlacer.GeomOps R)
    (sqrtF : ℚ → ℚ) (property_boundary : R) (exclusion_zones : List R)
    (grid_resolution buffer_boundary buffer_exclusion : ℚ)
    (hstep : 0 < AssetPlacer.effectiveGridRes G sqrtF
      (AssetPlacer.bufferedBoundaryOf G property_boundary
        (buffer_boundary * FEET_TO_DEGREES))
      (grid_resolution * FEET_TO_DEGREES)) :
    let bb := AssetPlacer.bufferedBoundaryOf G property_boundary
      (buffer_boundary * FEET_TO_DEGREES)
    let eu := AssetPlacer.exclusionUnionOf G exclusion_zones
      (buffer_exclusion * FEET_TO_DEGREES)
    let step := AssetPlacer.effectiveGridRes G sqrtF bb
      (grid_resolution * FEET_TO_DEGREES)
    let grid := (AssetPlacer.whileRange (G.boundsOf bb).minx
      (G.boundsOf bb).maxx step).flatMap (fun x =>
        (AssetPlacer.whileRange (G.boundsOf bb).miny (G.boundsOf bb).maxy
          step).map (fun y => (x, y)))
    let cands := AssetPlacer.generate_candidate_locations G sqrtF
      property_boundary exclusion_zones grid_resolution buffer_boundary
      buffer_exclusion
    cands = (grid.filter (AssetPlacer.candidateAccept G bb eu)).take 10000 ∧
    cands.length ≤ 10000 ∧
    (∀ p ∈ cands, G.containsPt bb p = true ∧
      ∀ u, eu = some u → G.containsPt u p = false) := by
  intro bb eu step grid cands
  have heq : cands = (grid.filter
      (AssetPlacer.candidateAccept G bb eu)).take 10000 := by
    have h0 : cands = AssetPlacer.collectLoop
        (AssetPlacer.candidateAccept G bb eu) grid [] := rfl
    rw [h0, collectLoop_eq (AssetPlacer.candidateAccept G bb eu) grid []
      (by norm_num)]
    simp
  refine ⟨heq, ?_, ?_⟩
  · rw [heq]
    exact List.length_take_le _ _
  · intro p hp
    rw [heq] at hp
    have hfil := List.mem_of_mem_take hp
    have hacc := List.of_mem_filter hfil
    unfold AssetPlacer.candidateAccept at hacc
    rw [Bool.and_eq_true] at hacc
    refine ⟨hacc.1, ?_⟩
    intro u hu
    have h2 := hacc.2
    rw [hu] at h2
    simpa using h2

/-- Witness for C2: a one-region geometry backend whose boundary is a unit
box in degrees; the coarsening step fires (the estimate is 1,000,000) and
the returned candidates obey the cap. -/
theorem C2_candidate_containment_witness :
    (AssetPlacer.generate_candidate_locations
      (R := Unit)
      ⟨fun _ _ => Except.ok (), fun _ => false, fun _ => true,
       fun _ _ => true, fun _ _ => true, fun _ _ => true,
       fun _ => Except.ok (), fun _ => ⟨0, 0, 1, 1⟩, fun _ => (0, 0),
       fun _ _ _ _ => ()⟩
      (fun q => q) () [] 364 50 100).length ≤ 10000 :=
  (C2_candidate_containment_cap
    (R := Unit)
    ⟨fun _ _ => Except.ok (), fun _ => false, fun _ => true,
     fun _ _ => true, fun _ _ => true, fun _ _ => true,
     fun _ => Except.ok (), fun _ => ⟨0, 0, 1, 1⟩, fun _ => (0, 0),
     fun _ _ _ _ => ()⟩
    (fun q => q) () [] 364 50 100
    (by norm_num [AssetPlacer.effectiveGridRes,
      AssetPlacer.bufferedBoundaryOf, FEET_TO_DEGREES, pyInt])).2.1

section C4Helpers

/-- The A* main loop consumes at most its fuel: the final `iterations`
counter is bounded by the starting counter plus the remaining budget. -/
lemma aStarLoop_iterations_le (ctx : RoadGenerator.AStarCtx) :
    ∀ (fuel iterations : ℕ) (st : RoadGenerator.AStarState),
    (RoadGenerator.aStarLoop ctx fuel iterations st).2 ≤ iterations + fuel := by
  intro fuel
  induction fuel with
  | zero =>
      intro iterations st
      simp [RoadGenerator.aStarLoop]
  | succ n ih =>
      intro iterations st
      simp only [RoadGenerator.aStarLoop]
      cases hpop : RoadGenerator.popMin st.open_set with
      | none =>
          simpa using Nat.le_add_right iterations (n + 1)
      | some pr =>
          obtain ⟨entry, rest⟩ := pr
          simp only []
          by_cases hv : entry.2 ∈ st.visited
          · rw [if_pos hv]
            have h := ih (iterations + 1) { st with open_set := rest }
            omega
          · rw [if_neg hv]
            by_cases hgoal : ctx.sqrtF ((entry.2.1 - ctx.goal.1)^2 +
                (entry.2.2 - ctx.goal.2)^2) < max (ctx.grid_size * 2) (1/10000)
            · rw [if_pos hgoal]
              show iterations + 1 ≤ iterations + (n + 1)
              omega
            · rw [if_neg hgoal]
              have h := ih (iterations + 1)
                (RoadGenerator.expandNeighbors ctx entry.2
                  { st with open_set := rest, visited := st.visited ++ [entry.2] })
              omega

end C4Helpers

/-- C4: the search `a_star_pathfinding` terminates on every input: its main loop
runs at most 10,000 iterations (the remaining budget is the decreasing
measure of `aStarLoop`), and the function always yields an explicit
`Option` result — `none` when no node within the goal tolerance is reached
before the cap or the open set empties — rather than an error. -/
theorem C4_a_star_terminates (rg : RoadGenerator.RGen) (sqrtF : ℚ → ℚ)
    (start goal : Pt) (property_boundary : RoadGenerator.PolyGeom)
    (exclusion_zones : List RoadGenerator.PolyGeom) (dem : Option Raster)
    (bounds : Option Bounds) (resolution : ℚ) :
    (RoadGenerator.a_star_pathfinding rg sqrtF start goal property_boundary
      exclusion_zones dem bounds resolution).2 ≤ 10000 ∧
    ((RoadGenerator.a_star_pathfinding rg sqrtF start goal property_boundary
        exclusion_zones dem bounds resolution).1 = none ∨
      ∃ p, (RoadGenerator.a_star_pathfinding rg sqrtF start goal
        property_boundary exclusion_zones dem bounds resolution).1 = some p) := by
  constructor
  · show (RoadGenerator.aStarLoop _ 10000 0 _).2 ≤ 10000
    exact le_trans (aStarLoop_iterations_le _ 10000 0 _) (by norm_num)
  · cases h : (RoadGenerator.a_star_pathfinding rg sqrtF start goal
        property_boundary exclusion_zones dem bounds resolution).1 with
    | none => exact Or.inl rfl
    | some p => exact Or.inr ⟨p, rfl⟩

section C1Helpers

/-- Elements of a fold whose step only keeps or appends elements
satisfying `P`. -/
lemma foldl_preserve {α β : Type} (P : β → Prop) (g : List β → α → List β)
    (hg : ∀ acc a, ∀ s ∈ g acc a, s ∈ acc ∨ P s) :
    ∀ (l : List α) (acc : List β), (∀ s ∈ acc, P s) →
    ∀ s ∈ l.foldl g acc, P s := by
  intro l
  induction l with
  | nil => intro acc h s hs; exact h s hs
  | cons a rest ih =>
      intro acc h s hs
      refine ih (g acc a) ?_ s hs
      intro s' hs'
      rcases hg acc a s' hs' with h' | h'
      · exact h s' h'
      · exact h'

/-- Every segment recorded by the path-search loop carries type `"access"`
and the access width: the `len(road_network) == 0` test consults a list
that is still empty during this loop, so its `'secondary'` branch is dead
code. -/
lemma generate_road_segments_all_access (rg : RoadGenerator.RGen)
    (sqrtF : ℚ → ℚ) (entry_point : Pt) (assets : List RoadGenerator.RoadAsset)
    (property_boundary : RoadGenerator.PolyGeom)
    (exclusion_zones : List RoadGenerator.PolyGeom) (dem : Option Raster)
    (bounds : Option Bounds) (resolution : ℚ) :
    ∀ seg ∈ RoadGenerator.generate_road_segments rg sqrtF entry_point assets
      property_boundary exclusion_zones dem bounds resolution,
      seg.type = "access" ∧ seg.width = rg.min_width_access := by
  simp only [RoadGenerator.generate_road_segments]
  apply foldl_preserve
    (fun seg : RoadGenerator.Segment =>
      seg.type = "access" ∧ seg.width = rg.min_width_access)
  · intro acc asset s hs
    cases hpath : (RoadGenerator.a_star_pathfinding rg sqrtF entry_point
        (asset.x, asset.y) property_boundary exclusion_zones dem bounds
        resolution).1 with
    | none =>
        rw [hpath] at hs
        exact Or.inl hs
    | some path =>
        rw [hpath] at hs
        rcases List.mem_append.mp hs with h | h
        · exact Or.inl h
        · right
          have hs' :
              s = RoadGenerator.Segment.mk "access" path asset.id
                rg.min_width_access := by
            simpa using h
          rw [hs']
          exact ⟨rfl, rfl⟩
  · intro s hs
    simp at hs

end C1Helpers

/-- One unfolding of the A* loop when the first popped node is fresh and
already within the goal tolerance. -/
lemma aStarLoop_first_hit (ctx : RoadGenerator.AStarCtx) (fuel iterations : ℕ)
    (st : RoadGenerator.AStarState) (entry : WithTop ℚ × Pt)
    (rest : List (WithTop ℚ × Pt))
    (hpop : RoadGenerator.popMin st.open_set = some (entry, rest))
    (hnv : entry.2 ∉ st.visited)
    (hhit : ctx.sqrtF ((entry.2.1 - ctx.goal.1)^2 + (entry.2.2 - ctx.goal.2)^2)
      < max (ctx.grid_size * 2) (1/10000)) :
    RoadGenerator.aStarLoop ctx (fuel + 1) iterations st =
      (some (RoadGenerator.reconstructPath st.came_from st.came_from.length
        entry.2 [ctx.goal]), iterations + 1) := by
  simp only [RoadGenerator.aStarLoop, hpop]
  rw [if_neg hnv, if_pos hhit]

/-- On an all-containing boundary with no exclusion zones, no DEM, the
identity as float sqrt and a degree-unit resolution of `1/2000`, a goal
within the tolerance of the start is found on the first A* iteration and
the returned path is `[goal]`. -/
lemma aStar_trivial_hit (start goal : Pt)
    (h : (start.1 - goal.1)^2 + (start.2 - goal.2)^2 < 1/1000) :
    (RoadGenerator.a_star_pathfinding RoadGenerator.RGen.mkDefault
      (fun q => q) start goal ⟨fun _ => true, (0, 0)⟩ [] none none
      (1/2000)).1 = some [goal] := by
  unfold RoadGenerator.a_star_pathfinding
  rw [if_neg (show ¬ ((1:ℚ)/1000 < 1/2000) by norm_num)]
  rw [if_pos rfl, if_pos rfl]
  rw [show (10000 : ℕ) = 9999 + 1 from rfl]
  rw [aStarLoop_first_hit _ 9999 0 _ (((0 : ℚ) : WithTop ℚ), start) []
    (by simp [RoadGenerator.popMin])
    (List.not_mem_nil start)
    (by show (fun q => q) ((start.1 - goal.1)^2 + (start.2 - goal.2)^2)
          < max ((1:ℚ)/2000 * 2) (1/10000)
        rw [show ((1:ℚ)/2000 * 2) = 1/1000 by norm_num,
          max_eq_left (show (1:ℚ)/10000 ≤ 1/1000 by norm_num)]
        exact h)]
  simp [RoadGenerator.reconstructPath]

/-- C1 divergence witness: on a concrete input where A* finds a path
to both assets, the second recorded segment is also of type `"access"`
with the 20ft access width — not `"secondary"` with 12ft as the spec (and
the conditional's intent) state: the type/width test reads `road_network`,
which is only populated by the later right-of-way loop. -/
theorem C1_second_segment_also_access :
    (RoadGenerator.generate_road_segments RoadGenerator.RGen.mkDefault
      (fun q => q) (0, 0)
      [⟨some "a1", 0, 0⟩, ⟨some "a2", 1/20000, 0⟩]
      ⟨fun _ => true, (0, 0)⟩ [] none none (1/2000)).map
      RoadGenerator.Segment.type = ["access", "access"] ∧
    (RoadGenerator.generate_road_segments RoadGenerator.RGen.mkDefault
      (fun q => q) (0, 0)
      [⟨some "a1", 0, 0⟩, ⟨some "a2", 1/20000, 0⟩]
      ⟨fun _ => true, (0, 0)⟩ [] none none (1/2000)).map
      RoadGenerator.Segment.width = [20, 20] := by
  have h1 := aStar_trivial_hit (0, 0) (0, 0) (by norm_num)
  have h2 := aStar_trivial_hit (0, 0) (1/20000, 0) (by norm_num)
  constructor <;>
  · simp only [RoadGenerator.generate_road_segments, List.foldl_cons,
      List.foldl_nil]
    rw [h1, h2]
    simp [RoadGenerator.RGen.mkDefault]

/-- C8: `place_assets` is deterministic — for every pair of runs with the
same geometry backend, float square root, configuration, property
boundary, exclusion zones, asset requirements, entry point, and terrain
data, the two runs produce identical ordered lists of placed assets, with
identical locations and scores.  The embedding is a pure function — the
source algorithm draws on no randomness — so equal inputs force equal
outputs. -/
theorem C8_place_assets_deterministic {R : Type}
    (G G2 : AssetPlacer.GeomOps R) (sqrtF sqrtF2 : ℚ → ℚ)
    (cfg cfg2 : AssetPlacer.PlacerConfig) (b b2 : R) (z z2 : List R)
    (reqs reqs2 : List AssetPlacer.AssetReq) (e e2 : Pt)
    (t t2 : Option AssetPlacer.TerrainData)
    (hG : G = G2) (hs : sqrtF = sqrtF2) (hcfg : cfg = cfg2) (hb : b = b2)
    (hz : z = z2) (hr : reqs = reqs2) (he : e = e2) (ht : t = t2) :
    AssetPlacer.place_assets G sqrtF cfg b z reqs e t =
      AssetPlacer.place_assets G2 sqrtF2 cfg2 b2 z2 reqs2 e2 t2 := by
  subst hG hs hcfg hb hz hr he ht
  rfl

/-- Witness for C8: two runs on a concrete configuration coincide. -/
theorem C8_place_assets_witness :
    AssetPlacer.place_assets (R := Unit)
      ⟨fun _ _ => Except.ok (), fun _ => false, fun _ => true,
       fun _ _ => true, fun _ _ => true, fun _ _ => true,
       fun _ => Except.ok (), fun _ => ⟨0, 0, 1, 1⟩, fun _ => (0, 0),
       fun _ _ _ _ => ()⟩
      (fun q => q) ⟨fun _ => some ⟨10, 10, []⟩, 50, 100, 50⟩ () []
      [⟨"substation", 1⟩] (0, 0) none =
    AssetPlacer.place_assets (R := Unit)
      ⟨fun _ _ => Except.ok (), fun _ => false, fun _ => true,
       fun _ _ => true, fun _ _ => true, fun _ _ => true,
       fun _ => Except.ok (), fun _ => ⟨0, 0, 1, 1⟩, fun _ => (0, 0),
       fun _ _ _ _ => ()⟩
      (fun q => q) ⟨fun _ => some ⟨10, 10, []⟩, 50, 100, 50⟩ () []
      [⟨"substation", 1⟩] (0, 0) none :=
  C8_place_assets_deterministic _ _ _ _ _ _ _ _ _ _ _ _ _ _ _ _
    rfl rfl rfl rfl rfl rfl rfl rfl
